import Mathlib

/-!
# Shallow embedding of `base::geometry::SplineBase` (src/src/spline.cpp)

Conventions of the embedding.

* A C++ `double` is a rational number (`ℚ`); arithmetic and comparisons are exact
  (rounding, infinities and NaN are not modelled).  `fabs` is the absolute value.
* A C++ `int` is an `Int`, a `std::vector<double>` is a `List ℚ`.
* The SISL kernel (`s1363`, `s1227`, ...) is an external library: it is a record of
  functions, `Sisl`, passed to every operation that calls it.  Each kernel function returns
  the values it assigns through its out-parameters, the status last.
* The `SISLCurve*` member is an `Option SISLCurve`; `freeCurve` releases memory and does not
  change the pointer, so it leaves the field as it is.  The functions are described for
  a handle that is valid; `handleFreed` recognises the objects whose handle has been freed.
* A member function that does not modify the object and can throw returns
  `Except Exception _`; one that modifies the object returns an `Outcome`: the object after
  the call together with the returned value or the exception thrown.
* `other` arguments are objects distinct from `this`.
-/

namespace base.geometry

/-! ## Data model -/

/-- The exceptions thrown in spline.cpp, each with the message of its throw site. -/
inductive Exception where
  | out_of_range (what : String)
  | runtime_error (what : String)
  | logic_error (what : String)
  deriving DecidableEq

/-- The fields of SISL's `SISLCurve` that spline.cpp reads or writes. -/
structure SISLCurve where
  /-- order of the curve -/
  ik : Int
  /-- number of vertices (`in` in SISL) -/
  in_ : Int
  /-- dimension of the space -/
  idim : Int
  /-- kind of curve: 2 and 4 are the rational ones -/
  ikind : Int
  /-- knot vector -/
  et : List ℚ
  /-- non-rational vertices -/
  ecoef : List ℚ
  /-- rational vertices -/
  rcoef : List ℚ
  /-- open/closed flag -/
  cuopen : Int
  deriving DecidableEq

/-- Values assigned by `s1356` / `s1357`: end parameter, the curve and the status. -/
structure FitResult where
  cendpar : ℚ
  rc : Option SISLCurve
  jstat : Int

/-- Values assigned by `s1953`: isolated closest points, closest intervals, status. -/
structure ClosestResult where
  points : List ℚ
  curves : List (ℚ × ℚ)
  status : Int

/-- Values assigned by `s2559`: position and the three frame axes. -/
structure FrameResult where
  p : ℚ
  t : List ℚ
  n : List ℚ
  b : List ℚ
  status : Int

/-- The SISL kernel functions called by spline.cpp. -/
structure Sisl where
  /-- Call `s1363(curve, &start, &end, &status)` -/
  s1363 : SISLCurve → ℚ × ℚ × Int
  /-- Call `s1227(curve, der, param, &leftknot, result, &status)`: the values written to `result` -/
  s1227 : SISLCurve → Int → ℚ → List ℚ × Int
  /-- Call `s2550(curve, &param, 1, &curvature, &status)` -/
  s2550 : SISLCurve → ℚ → ℚ × Int
  /-- Call `s2556(curve, &param, 1, &VoC, &status)` -/
  s2556 : SISLCurve → ℚ → ℚ × Int
  /-- Call `s1240(curve, epsge, &length, &status)` -/
  s1240 : SISLCurve → ℚ → ℚ × Int
  /-- Call `s1356(points, count, dim, types, 0, 0, 1, order, start, &end, &curve, ..., &status)` -/
  s1356 : List ℚ → Int → Int → List Int → Int → Int → Int → Int → ℚ → FitResult
  /-- Call `s1357(points, count, dim, types, parameters, 0, 0, 1, order, start, ...)` -/
  s1357 : List ℚ → Int → Int → List Int → List ℚ → Int → Int → Int → Int → ℚ → FitResult
  /-- Call `newCurve(count, order, knots, coordinates, kind, dim, copy)` -/
  newCurve : Int → Int → List ℚ → List ℚ → Int → Int → Int → SISLCurve
  /-- Call `copyCurve(curve)` -/
  copyCurve : SISLCurve → Option SISLCurve
  /-- Call `s1953(curve, point, dim, epsco, epsge, &npts, &pts, &ncurves, &curves, &status)` -/
  s1953 : SISLCurve → List ℚ → Int → ℚ → ℚ → ClosestResult
  /-- Call `s1774(curve, point, dim, epsge, start, end, guess, &param, &status)` -/
  s1774 : SISLCurve → List ℚ → Int → ℚ → ℚ → ℚ → ℚ → ℚ × Int
  /-- Call `s1715(first, second, end1, end2, &joined, &status)` -/
  s1715 : Option SISLCurve → Option SISLCurve → Int → Int → SISLCurve × Int
  /-- Call `s1940(curve, eps, startfix, endfix, iopen, itmax, &result, maxerr, &status)` -/
  s1940 : SISLCurve → List ℚ → Int → Int → Int → Int → Option SISLCurve × List ℚ × Int
  /-- Call `s1706(curve)`: reverses the curve in place -/
  s1706 : SISLCurve → SISLCurve
  /-- Call `s2559(curve, &param, 1, &p, t, n, b, &status)` -/
  s2559 : SISLCurve → ℚ → FrameResult

/-- The functions of the C math library and of Eigen used by spline.cpp. -/
structure Libm where
  sqrt : ℚ → ℚ
  atan2 : ℚ → ℚ → ℚ
  /-- Eigen `Vector2d::normalize()`, on the pair (x, y) -/
  normalize : ℚ × ℚ → ℚ × ℚ

/-- The constant `M_PI` of math.h: the double nearest to pi, as an exact fraction. -/
def M_PI : ℚ := 884279719003555 / 281474976710656

/-- The data members of `SplineBase`. -/
structure SplineBase where
  singleton : List ℚ
  dimension : Int
  curve : Option SISLCurve
  geometric_resolution : ℚ
  curve_order : Int
  start_param : ℚ
  end_param : ℚ
  has_curve_length : Bool
  curve_length : ℚ
  has_curvature_max : Bool
  curvature_max : ℚ
  deriving DecidableEq

/-- The object after a non-const member function and what the call returned or threw. -/
structure Outcome (α : Type) where
  state : SplineBase
  result : Except Exception α

namespace SplineBase

/-! ## Inline members declared in the class header -/

/-- Modelled from the spec: the header's `getStartParam()`; "`parameterRange`:
`[startParam, endParam]`", the accessor of the `start_param` member. -/
def getStartParam (s : SplineBase) : ℚ := s.start_param

/-- Modelled from the spec: the header's `getEndParam()`, the accessor of `end_param`. -/
def getEndParam (s : SplineBase) : ℚ := s.end_param

/-- Modelled from the spec: the header's `getDimension()`, the accessor of `dimension`. -/
def getDimension (s : SplineBase) : Int := s.dimension

/-- Modelled from the spec: the header's `getCurveOrder()`, the accessor of `curve_order`. -/
def getCurveOrder (s : SplineBase) : Int := s.curve_order

/-- Modelled from the spec: the header's `getGeometricResolution()`. -/
def getGeometricResolution (s : SplineBase) : ℚ := s.geometric_resolution

/-- Modelled from the spec: the header's `isEmpty()`; a curve is empty when it has no
kernel curve and no singleton point. -/
def isEmpty (s : SplineBase) : Bool := s.curve.isNone && s.singleton.isEmpty

/-- Modelled from the spec: the header's `isSingleton()`; a singleton is "a single fixed
point ... stored directly as a coordinate vector". -/
def isSingleton (s : SplineBase) : Bool := !s.singleton.isEmpty

/-! ## spline.cpp -/

/-- Function `angleLimit` (spline.cpp:11). -/
def angleLimit (angle : ℚ) : ℚ :=
  if angle > M_PI then angle - 2 * M_PI
  else if angle < -M_PI then angle + 2 * M_PI
  else angle

/-- The constructor `SplineBase(int dim, double resolution, int order)` (spline.cpp:21). -/
def new (dim : Int) (_geometric_resolution : ℚ) (_curve_order : Int) : SplineBase :=
  { singleton := [], dimension := dim, curve := none
    geometric_resolution := _geometric_resolution
    curve_order := _curve_order
    start_param := 0, end_param := 0
    has_curve_length := false, curve_length := -1
    has_curvature_max := false, curvature_max := -1 }

/-- The constructor `SplineBase(double resolution, SISLCurve* curve)` (spline.cpp:30). -/
def ofCurve (K : Sisl) (geometric_resolution : ℚ) (curve : SISLCurve) :
    Except Exception SplineBase :=
  let r := K.s1363 curve
  if r.2.2 ≠ 0 then
    .error (.runtime_error "cannot get the curve start & end parameters")
  else
    .ok { singleton := [], dimension := curve.idim, curve := some curve
          geometric_resolution := geometric_resolution
          curve_order := curve.ik
          start_param := r.1, end_param := r.2.1
          has_curve_length := false, curve_length := -1
          has_curvature_max := false, curvature_max := -1 }

/-- Function `operator=` (spline.cpp:62).  The shortcut for `&source == this` is not a
separate case: assigning an object to itself field by field gives the same fields, up to
`copyCurve`. -/
def assign (K : Sisl) (_this source : SplineBase) : SplineBase :=
  { singleton := source.singleton
    dimension := source.dimension
    curve := match source.curve with
      | some c => K.copyCurve c
      | none => none
    geometric_resolution := source.geometric_resolution
    curve_order := source.curve_order
    start_param := source.start_param
    end_param := source.end_param
    has_curve_length := source.has_curve_length
    curve_length := source.curve_length
    has_curvature_max := source.has_curvature_max
    curvature_max := source.curvature_max }

/-- Function `getPointCount` (spline.cpp:84). -/
def getPointCount (s : SplineBase) : Int :=
  match s.curve with
  | some c => c.in_
  | none => if s.singleton.isEmpty then 0 else 1

/-- Function `findClosestPoints` (spline.cpp:406): the two result vectors after the call. -/
def findClosestPoints (K : Sisl) (s : SplineBase) (ref_point : List ℚ)
    (_result_points : List ℚ) (_result_curves : List (ℚ × ℚ)) (_geores : ℚ) :
    Except Exception (List ℚ × List (ℚ × ℚ)) :=
  match s.curve with
  | none => .ok (_result_points ++ [0], _result_curves)
  | some c =>
    let r := K.s1953 c ref_point s.dimension _geores _geores
    if r.status ≠ 0 then
      .error (.runtime_error "failed to find the closest points")
    else
      .ok (_result_points ++ r.points, _result_curves ++ r.curves)

/-- The body of the first loop of `findOneClosestPoint` (spline.cpp:385). -/
def closerPoint (_guess closestPoint it : ℚ) : ℚ :=
  if |it - _guess| < |closestPoint - _guess| then it else closestPoint

/-- The loop over the intervals of `findOneClosestPoint` (spline.cpp:390-403), with its
early return. -/
def scanCurves (_guess : ℚ) : ℚ → List (ℚ × ℚ) → ℚ
  | closestPoint, [] => closestPoint
  | closestPoint, it :: rest =>
    if it.1 ≤ _guess ∧ it.2 ≥ _guess then _guess
    else
      let closestPoint1 :=
        if |it.1 - _guess| < |closestPoint - _guess| then it.1 else closestPoint
      let closestPoint2 :=
        if |it.2 - _guess| < |closestPoint1 - _guess| then it.2 else closestPoint1
      scanCurves _guess closestPoint2 rest

/-- Function `findOneClosestPoint` (spline.cpp:363). -/
def findOneClosestPoint (K : Sisl) (s : SplineBase) (_pt : List ℚ) (_guess _geores : ℚ) :
    Except Exception ℚ :=
  match s.curve with
  | none => .ok (getStartParam s)
  | some _ =>
    match findClosestPoints K s _pt [] [] _geores with
    | .error e => .error e
    | .ok (points, curves) =>
      match points with
      | [] =>
        match curves with
        | [] => .error (.logic_error "no closest point returned by findClosestPoints")
        | front :: _ => .ok (scanCurves _guess front.1 curves)
      | front :: rest =>
        .ok (scanCurves _guess (rest.foldl (closerPoint _guess) front) curves)

/-- Function `localClosestPointSearch` (spline.cpp:434). -/
def localClosestPointSearch (K : Sisl) (s : SplineBase) (ref_point : List ℚ)
    (_guess _start _end _geores : ℚ) : Except Exception ℚ :=
  match s.curve with
  | none => .ok (getStartParam s)
  | some c =>
    let bounds : ℚ × ℚ := if _end < _start then (_end, _start) else (_start, _end)
    let r := K.s1774 c ref_point s.dimension _geores bounds.1 bounds.2 _guess
    if r.2 < 0 then
      .error (.runtime_error "failed to find the closest points")
    else if r.1 < bounds.1 then .ok bounds.1
    else if r.1 > bounds.2 then .ok bounds.2
    else .ok r.1

/-- Writes `vals` into the buffer `buf` from offset `off` on (`std::copy` to `buf + off`);
a write past the end of the buffer, undefined in C++, is dropped. -/
def writeAt (buf : List ℚ) (off : Nat) : List ℚ → List ℚ
  | [] => buf
  | v :: vals => writeAt (buf.set off v) (off + 1) vals

/-- The loop `for (i = 0; i < dim; ++i) buf[i + dst] += buf[i + src]`. -/
def addInto (buf : List ℚ) (dst src : Nat) (dim : Nat) : List ℚ :=
  (List.range dim).foldl
    (fun b i => b.set (i + dst) (b.getD (i + dst) 0 + b.getD (i + src) 0)) buf

/-- Function `getPointAndTangentHelper` (spline.cpp:98): `result` is the memory the pointer
designates, the value returned is that memory after the call. -/
def getPointAndTangentHelper (K : Sisl) (s : SplineBase) (result : List ℚ) (_param : ℚ)
    (with_tangent : Bool) : Except Exception (List ℚ) :=
  if _param < s.start_param ∨ _param > s.end_param then
    .error (.out_of_range "_param is not in the [start_param, end_param] range")
  else
    match s.curve with
    | some c =>
      let r := K.s1227 c (if with_tangent then 1 else 0) _param
      if r.2 ≠ 0 then
        .error (.runtime_error "SISL error while computing a curve point")
      else .ok (writeAt result 0 r.1)
    | none =>
      let result := writeAt result 0 s.singleton
      if with_tangent then
        let dim := (getDimension s).toNat
        .ok ((List.range dim).foldl (fun b i => b.set (i + dim) 0) result)
      else .ok result

/-- Function `getPoint` (spline.cpp:92). -/
def getPoint (K : Sisl) (s : SplineBase) (result : List ℚ) (_param : ℚ) :
    Except Exception (List ℚ) :=
  getPointAndTangentHelper K s result _param false

/-- Function `getPointAndTangent` (spline.cpp:95). -/
def getPointAndTangent (K : Sisl) (s : SplineBase) (result : List ℚ) (_param : ℚ) :
    Except Exception (List ℚ) :=
  getPointAndTangentHelper K s result _param true

/-- Function `getCurvature` (spline.cpp:124); it does not modify the object. -/
def getCurvature (K : Sisl) (s : SplineBase) (_param : ℚ) : Except Exception ℚ :=
  if _param < s.start_param ∨ _param > s.end_param then
    .error (.out_of_range "_param is not in the [start_param, end_param] range")
  else if !s.singleton.isEmpty then
    .error (.runtime_error "getCurvature() called on a singleton")
  else
    match s.curve with
    | none => .error (.runtime_error "getCurvature() called on an empty curve")
    | some c =>
      let r := K.s2550 c _param
      if r.2 ≠ 0 then .error (.runtime_error "SISL error while computing a curvature")
      else .ok r.1

/-- Function `getVariationOfCurvature` (spline.cpp:143); it does not modify the object. -/
def getVariationOfCurvature (K : Sisl) (s : SplineBase) (_param : ℚ) : Except Exception ℚ :=
  if _param < s.start_param ∨ _param > s.end_param then
    .error (.out_of_range "_param is not in the [start_param, end_param] range")
  else if !s.singleton.isEmpty then
    .error (.runtime_error "getVariationOfCurvature() called on a singleton")
  else
    match s.curve with
    | none => .error (.runtime_error "getVariationOfCurvature() called on an empty curve")
    | some c =>
      let r := K.s2556 c _param
      if r.2 ≠ 0 then
        .error (.runtime_error "SISL error while computing a variation of curvature")
      else .ok r.1

/-- Function `getCurveLength` (spline.cpp:161). -/
def getCurveLength (K : Sisl) (s : SplineBase) : Outcome ℚ :=
  if s.has_curve_length then ⟨s, .ok s.curve_length⟩
  else
    match s.curve with
    | none => ⟨s, .error (.runtime_error "getCurveLength() called on an empty curve")⟩
    | some c =>
      let r := K.s1240 c s.geometric_resolution
      let s1 := { s with curve_length := r.1 }
      if r.2 ≠ 0 then ⟨s1, .error (.runtime_error "cannot get the curve length")⟩
      else ⟨{ s1 with has_curve_length := true }, .ok r.1⟩

/-- Function `getUnitParameter` (spline.cpp:178).  A division by a zero length, infinite in
C++, is 0 here. -/
def getUnitParameter (K : Sisl) (s : SplineBase) : Outcome ℚ :=
  if s.end_param = s.start_param then ⟨s, .ok 0⟩
  else
    let o := getCurveLength K s
    match o.result with
    | .error e => ⟨o.state, .error e⟩
    | .ok len => ⟨o.state, .ok ((s.end_param - s.start_param) / len)⟩

/-- The sampling loop of `getCurvatureMax` (spline.cpp:197): the value of the member
`curvature_max` when the loop ends and the exception that ended it, if any; `none` when
the loop is still running after `fuel` iterations. -/
def curvatureMaxLoop (K : Sisl) (s : SplineBase) (delPara : ℚ) :
    Nat → ℚ → ℚ → Option (ℚ × Except Exception Unit)
  | 0, _, _ => none
  | fuel + 1, p, curvature_max =>
    if p ≤ s.end_param then
      match getCurvature K s p with
      | .error e => some (curvature_max, .error e)
      | .ok curvature =>
        curvatureMaxLoop K s delPara fuel (p + delPara)
          (if curvature > curvature_max then curvature else curvature_max)
    else some (curvature_max, .ok ())

/-- Function `getCurvatureMax` (spline.cpp:184); `none` when the sampling loop does not end
within `fuel` iterations. -/
def getCurvatureMax (K : Sisl) (s : SplineBase) (fuel : Nat) : Option (Outcome ℚ) :=
  if !s.singleton.isEmpty then
    some ⟨s, .error (.runtime_error "getCurvatureMax() called on a singleton")⟩
  else if s.curve.isNone then
    some ⟨s, .error (.runtime_error "getCurvatureMax() called on an empty curve")⟩
  else if s.has_curvature_max then some ⟨s, .ok s.curvature_max⟩
  else
    let u := getUnitParameter K s
    match u.result with
    | .error e => some ⟨u.state, .error e⟩
    | .ok unit =>
      let delPara := unit * u.state.geometric_resolution
      let s1 := { u.state with curvature_max := 0 }
      match curvatureMaxLoop K s1 delPara fuel s1.start_param 0 with
      | none => none
      | some (cmax, .error e) => some ⟨{ s1 with curvature_max := cmax }, .error e⟩
      | some (cmax, .ok ()) =>
        some ⟨{ s1 with curvature_max := cmax, has_curvature_max := true }, .ok cmax⟩

/-- Function `isNURBS` (spline.cpp:208). -/
def isNURBS (s : SplineBase) : Bool :=
  match s.curve with
  | none => false
  | some c => c.ikind = 2 || c.ikind = 4

/-- Modelled from the spec: the header's `getCoordinatesStride()`; "stride = dimension, or
dimension+1 for rational kinds". -/
def getCoordinatesStride (s : SplineBase) : Int :=
  if isNURBS s then s.dimension + 1 else s.dimension

/-- Function `clear` (spline.cpp:606), for a handle that is valid.  On the object that the
one-tuple branch of `reset` leaves (handle freed, pointer kept) the C++ code frees the handle
a second time, which is undefined and not described here. -/
def clear (s : SplineBase) : SplineBase :=
  let s1 := { s with singleton := [] }
  match s1.curve with
  | some _ => { s1 with curve := none }
  | none => s1

/-- Function `interpolate` (spline.cpp:214).  `points.size() / dimension` is an unsigned
division: a negative `dimension` converts to a huge divisor and gives 0; division by a zero
`dimension`, undefined in C++, gives 0 here. -/
def interpolate (K : Sisl) (s : SplineBase) (points parameters : List ℚ) : Outcome Unit :=
  let s1 := clear s
  let s2 := { s1 with start_param := 0, has_curvature_max := false, has_curve_length := false }
  let point_count : Int := ((points.length / s2.dimension.toNat : Nat) : Int)
  if point_count = 0 then
    ⟨{ s2 with end_param := 0, singleton := [] }, .ok ()⟩
  else if point_count = 1 then
    ⟨{ s2 with end_param := 0, has_curve_length := true, curve_length := 0,
               singleton := points }, .ok ()⟩
  else
    let s3 := { s2 with singleton := [] }
    let point_types : List Int := List.replicate point_count.toNat 1
    let r :=
      if parameters.isEmpty then
        K.s1356 points point_types.length s3.dimension point_types 0 0 1 s3.curve_order
          s3.start_param
      else
        K.s1357 points point_types.length s3.dimension point_types parameters 0 0 1
          s3.curve_order s3.start_param
    let s4 := { s3 with end_param := r.cendpar, curve := r.rc }
    if r.jstat ≠ 0 then ⟨s4, .error (.runtime_error "cannot generate the curve")⟩
    else ⟨s4, .ok ()⟩

/-- Function `getCoordinates` (spline.cpp:276). -/
def getCoordinates (s : SplineBase) : List ℚ :=
  if !s.singleton.isEmpty then s.singleton
  else
    match s.curve with
    | none => []
    | some c =>
      if isNURBS s then c.rcoef.take ((s.dimension + 1) * getPointCount s).toNat
      else c.ecoef.take (s.dimension * getPointCount s).toNat

/-- Function `getKnots` (spline.cpp:288). -/
def getKnots (s : SplineBase) : List ℚ :=
  match s.curve with
  | none => []
  | some c => c.et.take (getPointCount s + getCurveOrder s).toNat

/-- Function `getSISLCurveType` (spline.cpp:296). -/
def getSISLCurveType (s : SplineBase) : Int :=
  match s.curve with
  | some c => c.ikind
  | none => 0

/-- Function `reset(SISLCurve*)` (spline.cpp:303). -/
def resetCurve (K : Sisl) (s : SplineBase) (new_curve : SISLCurve) : Outcome Unit :=
  let new_curve1 := { new_curve with cuopen := 1 }
  let s1 := { s with curve := some new_curve1, singleton := [], has_curvature_max := false,
                     has_curve_length := false }
  let r := K.s1363 new_curve1
  let s2 := { s1 with start_param := r.1, end_param := r.2.1 }
  if r.2.2 ≠ 0 then
    ⟨s2, .error (.runtime_error "cannot get the curve start & end parameters")⟩
  else ⟨s2, .ok ()⟩

/-- Function `reset(coordinates, knots, kind)` (spline.cpp:321). -/
def reset (K : Sisl) (s : SplineBase) (coordinates knots : List ℚ) (kind : Int) :
    Outcome Unit :=
  if coordinates.isEmpty then ⟨clear s, .ok ()⟩
  else if (coordinates.length : Int) = s.dimension then
    -- `if (curve) freeCurve(curve);` leaves the member `curve` as it is
    ⟨{ s with start_param := 0, end_param := 0, has_curvature_max := false,
              has_curve_length := true, curve_length := 0, singleton := coordinates },
     .ok ()⟩
  else
    let kindStride : Except Exception (Int × Int) :=
      if kind = -1 then
        match s.curve with
        | none => .error (.runtime_error
            "must give a 'kind' parameter to reset() since this curve is empty")
        | some c => .ok (c.ikind, getCoordinatesStride s)
      else
        .ok (kind, if kind = 2 ∨ kind = 4 then s.dimension + 1 else s.dimension)
    match kindStride with
    | .error e => ⟨s, .error e⟩
    | .ok (kind1, stride) =>
      let new_curve := K.newCurve ((coordinates.length / stride.toNat : Nat) : Int)
        (getCurveOrder s) knots coordinates kind1 s.dimension 1
      resetCurve K s new_curve

/-- Function `append` (spline.cpp:460). -/
def append (K : Sisl) (s other : SplineBase) : Outcome Unit :=
  if isEmpty s then ⟨assign K s other, .ok ()⟩
  else if isEmpty other || isSingleton other then ⟨s, .ok ()⟩
  else if isSingleton s then
    ⟨s, .error (.runtime_error "cannot append a curve to a singleton")⟩
  else
    let r := K.s1715 s.curve other.curve 1 0
    if r.2 ≠ 0 then ⟨s, .error (.runtime_error "failed to join the curves")⟩
    else resetCurve K s r.1

/-- The state of the locals of `join` when the case distinction (spline.cpp:515-559) is
left: the vector `joining_points`, the offsets in it that `start_point` and `end_point`
designate, and `joining_types`. -/
structure JoinSetup where
  joining_points : List ℚ
  start_point : Nat
  end_point : Nat
  joining_types : List Int

/-- The three last branches of the case distinction of `join` (spline.cpp:515-559); `dim`
is taken non-negative. -/
def joinSetup (K : Sisl) (s other : SplineBase) : Except Exception JoinSetup :=
  let dim := (getDimension s).toNat
  if isSingleton other then
    let jp0 : List ℚ := List.replicate (3 * dim) 0
    match getPointAndTangent K s jp0 (getEndParam s) with
    | .error e => .error e
    | .ok jp1 =>
      let jp2 := writeAt jp1 (2 * dim) other.singleton
      let jp3 := addInto jp2 dim 0 dim
      .ok ⟨jp3, 0, 2 * dim, [1, 14, 1, 0]⟩
  else if isSingleton s then
    let jp0 : List ℚ := List.replicate (3 * dim) 0
    let jp1 := writeAt jp0 0 s.singleton
    match getPointAndTangent K other (jp1.drop dim) (getStartParam s) with
    | .error e => .error e
    | .ok mem =>
      let jp2 := jp1.take dim ++ mem
      let jp3 := addInto jp2 (2 * dim) dim dim
      .ok ⟨jp3, 0, dim, [1, 1, 14, 0]⟩
  else
    let jp0 : List ℚ := List.replicate (4 * dim) 0
    match getPointAndTangent K s jp0 (getEndParam s) with
    | .error e => .error e
    | .ok jp1 =>
      match getPointAndTangent K other (jp1.drop (2 * dim)) (getStartParam other) with
      | .error e => .error e
      | .ok mem =>
        let jp2 := jp1.take (2 * dim) ++ mem
        let jp3 := (List.range dim).foldl
          (fun b i =>
            let b1 := b.set (i + dim) (b.getD (i + dim) 0 + b.getD i 0)
            b1.set (i + 3 * dim) (b1.getD (i + 3 * dim) 0 + b1.getD (i + 2 * dim) 0)) jp2
        .ok ⟨jp3, 0, 2 * dim, [1, 14, 1, 14]⟩

/-- The loop computing the squared distance in `join` (spline.cpp:561-566). -/
def joinSquaredDist (js : JoinSetup) (dim : Nat) : ℚ :=
  (List.range dim).foldl
    (fun dist i =>
      let d := js.joining_points.getD (js.start_point + i) 0
        - js.joining_points.getD (js.end_point + i) 0
      dist + d * d) 0

/-- Function `join` (spline.cpp:485).  The diagnostic output on `std::cerr` is left out.  A
null intermediate curve with status 0, whose dereference is undefined in C++, is reported
as an error. -/
def join (K : Sisl) (M : Libm) (s other : SplineBase) (tolerance : ℚ) : Outcome Unit :=
  let tolerance1 := if tolerance < 0 then 0 else tolerance
  let dim := getDimension s
  if getDimension other ≠ dim then
    ⟨s, .error (.runtime_error "incompatible dimensions in #join")⟩
  else if isEmpty s then ⟨assign K s other, .ok ()⟩
  else if isEmpty other then ⟨s, .ok ()⟩
  else if isSingleton s && isSingleton other then
    let line0 : List ℚ := List.replicate (dim * 2).toNat 0
    let line1 := writeAt line0 0 s.singleton
    let line2 := writeAt line1 dim.toNat other.singleton
    interpolate K s line2 []
  else
    match joinSetup K s other with
    | .error e => ⟨s, .error e⟩
    | .ok js =>
      let dist := M.sqrt (joinSquaredDist js dim.toNat)
      if dist ≤ tolerance1 then append K s other
      else
        let r := K.s1356 js.joining_points
          ((js.joining_points.length / dim.toNat : Nat) : Int) dim js.joining_types 0 0 1
          (getCurveOrder s) 0
        if r.jstat ≠ 0 then
          ⟨s, .error (.runtime_error "cannot generate the intermediate curve")⟩
        else
          match r.rc with
          | none => ⟨s, .error (.runtime_error "null intermediate curve")⟩
          | some raw_intermediate_curve =>
            match ofCurve K (getGeometricResolution s) raw_intermediate_curve with
            | .error e => ⟨s, .error e⟩
            | .ok intermediate_curve =>
              let o : Outcome Unit :=
                if isSingleton s then ⟨assign K s intermediate_curve, .ok ()⟩
                else append K s intermediate_curve
              match o.result with
              | .error e => ⟨o.state, .error e⟩
              | .ok _ => append K o.state other

/-- Function `reverse` (spline.cpp:616). -/
def reverse (K : Sisl) (s : SplineBase) : SplineBase :=
  match s.curve with
  | some c => { s with curve := some (K.s1706 c) }
  | none => s

/-- Function `simplify(double)` (spline.cpp:651). -/
def simplify (K : Sisl) (s : SplineBase) (tolerance : ℚ) : Outcome (List ℚ) :=
  match s.curve with
  | none => ⟨s, .ok [0]⟩
  | some c =>
    let r := K.s1940 c [tolerance, tolerance, tolerance] s.curve_order s.curve_order 1 10
    if r.2.2 ≠ 0 then
      ⟨s, .error (.runtime_error "SISL error while simplifying a curve")⟩
    else ⟨{ s with curve := r.1 }, .ok r.2.1⟩

/-- Function `getFrenetFrame` (spline.cpp:689): the matrix row by row; the status of `s2559`
is not looked at.  It does not modify the object. -/
def getFrenetFrame (K : Sisl) (s : SplineBase) (_param : ℚ) : Except Exception (List ℚ) :=
  match s.curve with
  | none => .error (.runtime_error "getFrenetFrame() called on an empty or degenerate curve")
  | some c =>
    let r := K.s2559 c _param
    .ok [r.t.getD 0 0, r.t.getD 1 0, r.t.getD 2 0,
         r.n.getD 0 0, r.n.getD 1 0, r.n.getD 2 0,
         r.b.getD 0 0, r.b.getD 1 0, r.b.getD 2 0]

/-- Function `getHeading` (spline.cpp:708). -/
def getHeading (K : Sisl) (M : Libm) (s : SplineBase) (_param : ℚ) : Except Exception ℚ :=
  match getFrenetFrame K s _param with
  | .error e => .error e
  | .ok frame =>
    let Xaxis := M.normalize (frame.getD 0 0, frame.getD 1 0)
    .ok (M.atan2 Xaxis.2 Xaxis.1)

/-- Function `headingError` (spline.cpp:720). -/
def headingError (K : Sisl) (M : Libm) (s : SplineBase) (_actHeading _param : ℚ) :
    Except Exception ℚ :=
  match getHeading K M s _param with
  | .error e => .error e
  | .ok heading => .ok (angleLimit (_actHeading - heading))

/-! ## Specification-side definitions -/

/-- The end points of the intervals in encounter order: for each interval its first end
point followed by its second. -/
def intervalEndpoints : List (ℚ × ℚ) → List ℚ
  | [] => []
  | iv :: rest => iv.1 :: iv.2 :: intervalEndpoints rest

/-- The candidates of `findOneClosestPoint` in encounter order: the isolated points in
result order, then the end points of the intervals. -/
def candidates (points : List ℚ) (curves : List (ℚ × ℚ)) : List ℚ :=
  points ++ intervalEndpoints curves

/-- The value `r` is the first element of `l` nearest to `guess`: it is strictly nearer than
every element before it and at least as near as every element after it. -/
def FirstNearest (guess : ℚ) (l : List ℚ) (r : ℚ) : Prop :=
  ∃ pre post, l = pre ++ r :: post ∧
    (∀ x ∈ pre, |r - guess| < |x - guess|) ∧ (∀ x ∈ post, |r - guess| ≤ |x - guess|)

/-- The handle in `curve` has been released by `freeCurve` while the pointer was kept.  In
spline.cpp only the one-tuple branch of `reset` (line 330) does that, and it stores a
non-empty singleton next to the pointer, whereas every function that stores a kernel curve
empties the singleton: the freed handles are those held next to a singleton point.  On such
an object every function that frees or reads the handle (`clear`, `interpolate`, `reset`,
`simplify`, `operator=`, the kernel calls) is undefined in C++. -/
def handleFreed (s : SplineBase) : Bool := s.curve.isSome && !s.singleton.isEmpty

/-! ## The explicit representation and the end point gap, in the words of the spec -/

/-- The array of a kernel curve that holds its control coordinates: the rational vertices
for the rational kinds 2 and 4, the plain vertices otherwise. -/
def controlCoordinates (c : SISLCurve) : List ℚ :=
  if c.ikind = 2 ∨ c.ikind = 4 then c.rcoef else c.ecoef

/-- The number of coordinates of one control point of a kernel curve: its dimension, and
one more for the rational kinds. -/
def coordinatesStride (c : SISLCurve) : Int :=
  if c.ikind = 2 ∨ c.ikind = 4 then c.idim + 1 else c.idim

/-- The knot vector of a kernel curve: the first count + order entries of its array `et`. -/
def knotVector (c : SISLCurve) : List ℚ := c.et.take (c.in_ + c.ik).toNat

/-- The control points of a kernel curve: the first stride * count entries of the array
that holds its control coordinates. -/
def controlPoints (c : SISLCurve) : List ℚ :=
  (controlCoordinates c).take (coordinatesStride c * c.in_).toNat

/-- Two kernel curves with the same explicit representation: count, order, dimension, kind,
knot vector and control points. -/
def SameRepresentation (c1 c2 : SISLCurve) : Prop :=
  c1.in_ = c2.in_ ∧ c1.ik = c2.ik ∧ c1.idim = c2.idim ∧ c1.ikind = c2.ikind ∧
    knotVector c1 = knotVector c2 ∧ controlPoints c1 = controlPoints c2

/-- The contract of the kernel that the round trip through the explicit representation
relies on: `newCurve` builds the curve of its arguments (it reads count + order knots and
stride * count coordinates), and the parameter range and the evaluation of a curve depend on
its explicit representation only. -/
structure ExplicitKernel (K : Sisl) : Prop where
  newCurve_repr : ∀ (n k : Int) (et coef : List ℚ) (kind dim copy : Int),
    (K.newCurve n k et coef kind dim copy).in_ = n ∧
    (K.newCurve n k et coef kind dim copy).ik = k ∧
    (K.newCurve n k et coef kind dim copy).idim = dim ∧
    (K.newCurve n k et coef kind dim copy).ikind = kind ∧
    knotVector (K.newCurve n k et coef kind dim copy) = et.take (n + k).toNat ∧
    controlPoints (K.newCurve n k et coef kind dim copy)
      = coef.take ((if kind = 2 ∨ kind = 4 then dim + 1 else dim) * n).toNat
  s1363_repr : ∀ c1 c2 : SISLCurve, SameRepresentation c1 c2 → K.s1363 c1 = K.s1363 c2
  s1227_repr : ∀ c1 c2 : SISLCurve, SameRepresentation c1 c2 → K.s1227 c1 = K.s1227 c2

/-- A genuine curve `c` with the kernel curve `cv`: the kernel curve is held and there is
no singleton point; the members `dimension`, `curve_order`, `start_param` and `end_param`
are those of the kernel curve; the kernel curve has a positive dimension and a kind from 1
to 4, and its arrays hold at least the entries SISL documents (count + order knots,
stride * count control coordinates). -/
structure Genuine (K : Sisl) (c : SplineBase) (cv : SISLCurve) : Prop where
  curve_eq : c.curve = some cv
  singleton_eq : c.singleton = []
  order_eq : cv.ik = c.curve_order
  dim_eq : cv.idim = c.dimension
  range_eq : K.s1363 cv = (c.start_param, c.end_param, 0)
  dim_pos : 0 < c.dimension
  count_nonneg : 0 ≤ cv.in_
  order_nonneg : 0 ≤ cv.ik
  kind_range : 1 ≤ cv.ikind ∧ cv.ikind ≤ 4
  knots_size : cv.in_ + cv.ik ≤ (cv.et.length : Int)
  coordinates_size : coordinatesStride cv * cv.in_ ≤ ((controlCoordinates cv).length : Int)

/-- The object is a singleton in the sense of the data model: it holds no kernel curve and
stores one point of `dimension` coordinates. -/
def IsSingletonCurve (s : SplineBase) : Prop :=
  s.curve = none ∧ s.singleton ≠ [] ∧ (s.singleton.length : Int) = s.dimension

/-- The object is a genuine curve in the sense of the data model: it holds a kernel curve
of its own dimension and stores no point. -/
def IsGenuineCurve (s : SplineBase) : Prop :=
  ∃ c : SISLCurve, s.curve = some c ∧ c.idim = s.dimension ∧ s.singleton = []

/-- The contract of the kernel's evaluation `s1227` on the curves of the dimension `dim`:
with one derivative it writes the `dim` coordinates of the position, the same as without
derivative, followed by the `dim` coordinates of the tangent, and it reports the same
status. -/
structure PointTangentKernel (K : Sisl) (dim : Int) : Prop where
  status_eq : ∀ (c : SISLCurve) (p : ℚ), c.idim = dim →
    (K.s1227 c 1 p).2 = (K.s1227 c 0 p).2
  point_size : ∀ (c : SISLCurve) (p : ℚ), c.idim = dim →
    (K.s1227 c 0 p).1.length = dim.toNat
  tangent_size : ∀ (c : SISLCurve) (p : ℚ), c.idim = dim →
    (K.s1227 c 1 p).1.length = 2 * dim.toNat
  point_eq : ∀ (c : SISLCurve) (p : ℚ), c.idim = dim →
    (K.s1227 c 1 p).1.take dim.toNat = (K.s1227 c 0 p).1

/-- The end point of a curve in the words of the spec: `pointAt(endParam)`, or the stored
point when the curve is a singleton. -/
def specEndPoint (K : Sisl) (s : SplineBase) : Except Exception (List ℚ) :=
  if isSingleton s then .ok s.singleton
  else
    match getPoint K s (List.replicate (getDimension s).toNat 0) (getEndParam s) with
    | .error e => .error e
    | .ok r => .ok (r.take (getDimension s).toNat)

/-- The start point of a curve in the words of the spec: `pointAt(startParam)` at the
curve's own start parameter, or the stored point when the curve is a singleton. -/
def specStartPoint (K : Sisl) (s : SplineBase) : Except Exception (List ℚ) :=
  if isSingleton s then .ok s.singleton
  else
    match getPoint K s (List.replicate (getDimension s).toNat 0) (getStartParam s) with
    | .error e => .error e
    | .ok r => .ok (r.take (getDimension s).toNat)

/-- The Euclidean distance of two points. -/
def euclideanDistance (M : Libm) (a b : List ℚ) : ℚ :=
  M.sqrt ((List.zipWith (fun x y => (x - y) * (x - y)) a b).sum)

/-- The gap of `join` in the words of the spec: the Euclidean distance between the end point
of this curve and the start point of the other. -/
def specGap (K : Sisl) (M : Libm) (s other : SplineBase) : Except Exception ℚ :=
  match specEndPoint K s, specStartPoint K other with
  | .ok a, .ok b => .ok (euclideanDistance M a b)
  | .error e, _ => .error e
  | _, .error e => .error e

/-! ## Concrete inputs

A kernel for segments of the x axis: a curve with the vertices (0, 0, 0) and (L, 0, 0) is
the segment from the origin to (L, 0, 0), run through by the parameters 0 to 1.  It is used
to evaluate the operations on explicit inputs. -/

/-- The unit segment of the x axis as a B-spline of order 2 with two vertices. -/
def unitSegment : SISLCurve :=
  { ik := 2, in_ := 2, idim := 3, ikind := 1, et := [0, 0, 1, 1],
    ecoef := [0, 0, 0, 1, 0, 0], rcoef := [], cuopen := 1 }

/-- The x coordinate of the second vertex of a curve, the length of the segment. -/
def segmentLength (c : SISLCurve) : ℚ := c.ecoef.getD 3 0

/-- The kernel of the segments of the x axis.  Fitting and joining give the unit segment;
simplifying shortens the segment by the tolerance; the closest-point search answers with
one isolated point at 5 and one interval from 1 to 3, the bounded search with its guess. -/
def segmentSisl : Sisl :=
  { s1363 := fun _ => (0, 1, 0)
    s1227 := fun c der param =>
      (if der = 0 then [segmentLength c * param, 0, 0]
       else [segmentLength c * param, 0, 0, segmentLength c, 0, 0], 0)
    s2550 := fun _ _ => (0, 0)
    s2556 := fun _ _ => (0, 0)
    s1240 := fun c _ => (segmentLength c, 0)
    s1356 := fun _ _ _ _ _ _ _ _ _ => ⟨1, some unitSegment, 0⟩
    s1357 := fun _ _ _ _ _ _ _ _ _ _ => ⟨1, some unitSegment, 0⟩
    newCurve := fun n k et coef kind dim _ =>
      { ik := k, in_ := n, idim := dim, ikind := kind, et := et, ecoef := coef,
        rcoef := coef, cuopen := 1 }
    copyCurve := fun c => some c
    s1953 := fun _ _ _ _ _ => ⟨[5], [(1, 3)], 0⟩
    s1774 := fun _ _ _ _ _ _ guess => (guess, 0)
    s1715 := fun _ _ _ _ => (unitSegment, 0)
    s1940 := fun c eps _ _ _ _ =>
      (some { c with ecoef := [0, 0, 0, segmentLength c - eps.getD 0 0, 0, 0] },
       [eps.getD 0 0, 0, 0], 0)
    s1706 := fun c => c
    s2559 := fun _ param => ⟨param, [1, 0, 0], [0, 1, 0], [0, 0, 1], 0⟩ }

/-- The math functions, exact on the inputs used below: `sqrt` on 0 and 1, `atan2` on the
axes, `normalize` on vectors that are already of length 1 or 0. -/
def axisLibm : Libm :=
  { sqrt := fun x => if x = 0 then 0 else 1
    atan2 := fun y x =>
      if y = 0 then (if x < 0 then M_PI else 0)
      else if y > 0 then M_PI / 2 else -(M_PI / 2)
    normalize := fun v => v }

/-- A genuine curve: the unit segment, as the kernel's constructor builds it. -/
def segmentCurve : SplineBase :=
  { singleton := [], dimension := 3, curve := some unitSegment
    geometric_resolution := 1 / 10, curve_order := 2
    start_param := 0, end_param := 1
    has_curve_length := false, curve_length := -1
    has_curvature_max := false, curvature_max := -1 }

/-- The kernel of the lines along the x axis: a curve is at (L * t, 0, 0) for the parameter
t, L being the fourth control coordinate, and its parameter range goes from its first to
its last knot; `newCurve` stores its arguments; everything else is as in `segmentSisl`. -/
def knotSisl : Sisl :=
  { segmentSisl with
    s1363 := fun c => (c.et.headD 0, c.et.getLastD 0, 0)
    s1227 := fun c der param =>
      (if der = 0 then [(controlCoordinates c).getD 3 0 * param, 0, 0]
       else [(controlCoordinates c).getD 3 0 * param, 0, 0,
             (controlCoordinates c).getD 3 0, 0, 0], 0)
    newCurve := fun n k et coef kind dim _ =>
      { ik := k, in_ := n, idim := dim, ikind := kind, et := et.take (n + k).toNat,
        ecoef := coef, rcoef := coef, cuopen := 1 } }

/-- The kernel `knotSisl` reading no more of a curve than its explicit representation: the
parameter range goes from the first to the last entry of the knot vector, and L is the
fourth coordinate of the control points. -/
def explicitSisl : Sisl :=
  { knotSisl with
    s1363 := fun c => ((knotVector c).headD 0, (knotVector c).getLastD 0, 0)
    s1227 := fun c der param =>
      (if der = 0 then [(controlPoints c).getD 3 0 * param, 0, 0]
       else [(controlPoints c).getD 3 0 * param, 0, 0, (controlPoints c).getD 3 0, 0, 0], 0) }

/-- A kernel curve of order 1 with the single vertex (1, 2, 3). -/
def vertexCurve : SISLCurve :=
  { ik := 1, in_ := 1, idim := 3, ikind := 1, et := [0, 1],
    ecoef := [1, 2, 3], rcoef := [], cuopen := 1 }

/-- The genuine curve that the constructor builds from `vertexCurve`. -/
def vertexSpline : SplineBase :=
  { singleton := [], dimension := 3, curve := some vertexCurve
    geometric_resolution := 1 / 10, curve_order := 1
    start_param := 0, end_param := 1
    has_curve_length := false, curve_length := -1
    has_curvature_max := false, curvature_max := -1 }

/-- The line from (-1, 0, 0) at the parameter -1 to (1, 0, 0) at the parameter 1, as `reset`
builds it from its coordinates and knots with the kernel `knotSisl`. -/
def centredLine : SplineBase :=
  (reset knotSisl (new 3 (1 / 10) 2) [-1, 0, 0, 1, 0, 0] [-1, -1, 1, 1] 1).state

/-- The line from (1, 0, 0) at the parameter 1/2 to (2, 0, 0) at the parameter 1, which
starts where the unit segment ends, as `reset` builds it with the kernel `knotSisl`. -/
def followingLine : SplineBase :=
  (reset knotSisl (new 3 (1 / 10) 2) [1, 0, 0, 2, 0, 0] [1 / 2, 1 / 2, 1, 1] 1).state

/-- The singleton curve at the origin, as `interpolate` with one point leaves it. -/
def pointA : SplineBase :=
  { singleton := [0, 0, 0], dimension := 3, curve := none
    geometric_resolution := 1 / 10, curve_order := 2
    start_param := 0, end_param := 0
    has_curve_length := true, curve_length := 0
    has_curvature_max := false, curvature_max := -1 }

/-- The singleton curve at (1, 0, 0), the end point of the unit segment. -/
def pointB : SplineBase :=
  { singleton := [1, 0, 0], dimension := 3, curve := none
    geometric_resolution := 1 / 10, curve_order := 2
    start_param := 0, end_param := 0
    has_curve_length := true, curve_length := 0
    has_curvature_max := false, curvature_max := -1 }

/-! ## Closest-point selection (C1, C2) -/

theorem scanCurves_of_inside (guess : ℚ) :
    ∀ (curves : List (ℚ × ℚ)) (closestPoint : ℚ),
      (∃ iv ∈ curves, iv.1 ≤ guess ∧ guess ≤ iv.2) →
      scanCurves guess closestPoint curves = guess := by
  intro curves
  induction curves with
  | nil => intro _ h; obtain ⟨iv, hiv, _⟩ := h; cases hiv
  | cons it rest ih =>
    intro cp h
    unfold scanCurves
    by_cases hit : it.1 ≤ guess ∧ it.2 ≥ guess
    · simp [hit]
    · rw [if_neg hit]
      apply ih
      obtain ⟨iv, hiv, h1, h2⟩ := h
      rcases List.mem_cons.mp hiv with rfl | hmem
      · exact absurd ⟨h1, h2⟩ hit
      · exact ⟨iv, hmem, h1, h2⟩

theorem scanCurves_of_outside (guess : ℚ) :
    ∀ (curves : List (ℚ × ℚ)) (closestPoint : ℚ),
      (∀ iv ∈ curves, ¬ (iv.1 ≤ guess ∧ guess ≤ iv.2)) →
      scanCurves guess closestPoint curves
        = (intervalEndpoints curves).foldl (closerPoint guess) closestPoint := by
  intro curves
  induction curves with
  | nil => intro _ _; rfl
  | cons it rest ih =>
    intro cp h
    have hit : ¬ (it.1 ≤ guess ∧ it.2 ≥ guess) := h it (List.mem_cons_self _ _)
    unfold scanCurves
    rw [if_neg hit]
    simp only [intervalEndpoints, List.foldl_cons]
    rw [ih _ (fun iv hiv => h iv (List.mem_cons_of_mem _ hiv))]
    rfl

theorem FirstNearest.le_all {guess : ℚ} {l : List ℚ} {r : ℚ} (h : FirstNearest guess l r) :
    ∀ x ∈ l, |r - guess| ≤ |x - guess| := by
  obtain ⟨pre, post, rfl, hpre, hpost⟩ := h
  intro x hx
  rcases List.mem_append.mp hx with hx | hx
  · exact le_of_lt (hpre x hx)
  · rcases List.mem_cons.mp hx with rfl | hx
    · exact le_refl _
    · exact hpost x hx

theorem foldl_closerPoint_firstNearest (guess : ℚ) :
    ∀ (l : List ℚ) (a : ℚ), FirstNearest guess (a :: l) (l.foldl (closerPoint guess) a) := by
  intro l
  induction l with
  | nil => intro a; exact ⟨[], [], rfl, by simp, by simp⟩
  | cons b l ih =>
    intro a
    rw [List.foldl_cons]
    by_cases hba : |b - guess| < |a - guess|
    · have hstep : closerPoint guess a b = b := by simp [closerPoint, hba]
      rw [hstep]
      have hb := ih b
      generalize List.foldl (closerPoint guess) b l = r at hb ⊢
      have hmin := hb.le_all b (List.mem_cons_self _ _)
      obtain ⟨pre, post, heq, hpre, hpost⟩ := hb
      refine ⟨a :: pre, post, by rw [heq]; rfl, ?_, hpost⟩
      intro x hx
      rcases List.mem_cons.mp hx with rfl | hx
      · exact lt_of_le_of_lt hmin hba
      · exact hpre x hx
    · have hstep : closerPoint guess a b = a := by simp [closerPoint, hba]
      rw [hstep]
      have h := ih a
      generalize List.foldl (closerPoint guess) a l = r at h ⊢
      obtain ⟨pre, post, heq, hpre, hpost⟩ := h
      cases pre with
      | nil =>
        simp only [List.nil_append, List.cons.injEq] at heq
        obtain ⟨hr, hl⟩ := heq
        subst hr
        refine ⟨[], b :: l, rfl, by simp, ?_⟩
        intro x hx
        rcases List.mem_cons.mp hx with rfl | hx
        · exact not_lt.mp hba
        · exact hpost x (hl ▸ hx)
      | cons a1 pre1 =>
        simp only [List.cons_append, List.cons.injEq] at heq
        obtain ⟨ha, hl⟩ := heq
        subst ha
        refine ⟨a :: b :: pre1, post, by rw [hl]; rfl, ?_, hpost⟩
        intro x hx
        have hra : |r - guess| < |a - guess| := hpre a (List.mem_cons_self _ _)
        rcases List.mem_cons.mp hx with rfl | hx
        · exact hra
        · rcases List.mem_cons.mp hx with rfl | hx
          · exact lt_of_lt_of_le hra (not_lt.mp hba)
          · exact hpre x (List.mem_cons_of_mem _ hx)

/-- C1: on a genuine curve, when the guess lies inside at least one interval returned by
`findClosestPoints`, `findOneClosestPoint` returns exactly the guess, whatever isolated
points and other intervals were returned and in whatever order. -/
theorem findOneClosestPoint_guess_inside (K : Sisl) (s : SplineBase) (c : SISLCurve)
    (_pt : List ℚ) (_guess _geores : ℚ) (points : List ℚ) (curves : List (ℚ × ℚ))
    (hcurve : s.curve = some c)
    (hfound : findClosestPoints K s _pt [] [] _geores = .ok (points, curves))
    (hinside : ∃ iv ∈ curves, iv.1 ≤ _guess ∧ _guess ≤ iv.2) :
    findOneClosestPoint K s _pt _guess _geores = .ok _guess := by
  unfold findOneClosestPoint
  rw [hcurve]
  simp only [hfound]
  cases points with
  | nil =>
    cases curves with
    | nil => obtain ⟨iv, hiv, _⟩ := hinside; cases hiv
    | cons front rest =>
      simp only
      rw [scanCurves_of_inside _guess _ _ hinside]
  | cons front rest =>
    simp only
    rw [scanCurves_of_inside _guess _ _ hinside]

theorem findOneClosestPoint_guess_inside_witness :
    findOneClosestPoint segmentSisl segmentCurve [1 / 2, 1, 0] 2 (1 / 10) = .ok 2 :=
  findOneClosestPoint_guess_inside segmentSisl segmentCurve unitSegment [1 / 2, 1, 0] 2
    (1 / 10) [5] [(1, 3)] rfl rfl ⟨(1, 3), by simp, by norm_num, by norm_num⟩

/-- C2: on a genuine curve, when `findClosestPoints` returns at least one isolated point or
interval and the guess lies inside no returned interval, `findOneClosestPoint` returns the
first candidate nearest to the guess in encounter order (isolated points in result order,
then for each interval its first end point followed by its second): it is at least as near
as every candidate and strictly nearer than every candidate before it. -/
theorem findOneClosestPoint_first_nearest (K : Sisl) (s : SplineBase) (c : SISLCurve)
    (_pt : List ℚ) (_guess _geores : ℚ) (points : List ℚ) (curves : List (ℚ × ℚ))
    (hcurve : s.curve = some c)
    (hfound : findClosestPoints K s _pt [] [] _geores = .ok (points, curves))
    (hsome : points ≠ [] ∨ curves ≠ [])
    (houtside : ∀ iv ∈ curves, ¬ (iv.1 ≤ _guess ∧ _guess ≤ iv.2)) :
    ∃ r, findOneClosestPoint K s _pt _guess _geores = .ok r ∧
      FirstNearest _guess (candidates points curves) r ∧
      ∀ x ∈ candidates points curves, |r - _guess| ≤ |x - _guess| := by
  have key : ∃ r, findOneClosestPoint K s _pt _guess _geores = .ok r ∧
      FirstNearest _guess (candidates points curves) r := by
    unfold findOneClosestPoint
    rw [hcurve]
    simp only [hfound]
    cases points with
    | nil =>
      cases curves with
      | nil => simp at hsome
      | cons front rest =>
        refine ⟨_, rfl, ?_⟩
        rw [scanCurves_of_outside _guess _ _ houtside]
        have h := foldl_closerPoint_firstNearest _guess (front.2 :: intervalEndpoints rest)
          front.1
        have hself : closerPoint _guess front.1 front.1 = front.1 := by simp [closerPoint]
        simpa [candidates, intervalEndpoints, List.foldl_cons, hself] using h
    | cons front rest =>
      refine ⟨_, rfl, ?_⟩
      rw [scanCurves_of_outside _guess _ _ houtside, ← List.foldl_append]
      exact foldl_closerPoint_firstNearest _guess (rest ++ intervalEndpoints curves) front
  obtain ⟨r, hr, hfirst⟩ := key
  exact ⟨r, hr, hfirst, hfirst.le_all⟩

theorem findOneClosestPoint_first_nearest_witness :
    ∃ r, findOneClosestPoint segmentSisl segmentCurve [1 / 2, 1, 0] 4 (1 / 10) = .ok r ∧
      FirstNearest 4 (candidates [5] [(1, 3)]) r ∧
      ∀ x ∈ candidates [5] [(1, 3)], |r - 4| ≤ |x - 4| :=
  findOneClosestPoint_first_nearest segmentSisl segmentCurve unitSegment [1 / 2, 1, 0] 4
    (1 / 10) [5] [(1, 3)] rfl rfl (Or.inl (by simp))
    (by intro iv hiv; simp at hiv; subst hiv; norm_num)

/-! ## Bounded local search (C3) -/

theorem swapped_bounds (_start _end : ℚ) :
    (if _end < _start then (_end, _start) else (_start, _end))
      = (min _start _end, max _start _end) := by
  by_cases h : _end < _start
  · rw [if_pos h, min_eq_right (le_of_lt h), max_eq_left (le_of_lt h)]
  · rw [if_neg h, min_eq_left (not_lt.mp h), max_eq_right (not_lt.mp h)]

/-- C3: on a genuine curve, with the bounds given in either order, `localClosestPointSearch`
fails exactly when the status of the kernel's `s1774` (called on the ordered bounds) is
negative; otherwise it returns a parameter `r` with min(start, end) <= r <= max(start, end),
and `r` is the kernel's parameter whenever that one already lies in this interval. -/
theorem localClosestPointSearch_clamped (K : Sisl) (s : SplineBase) (c : SISLCurve)
    (ref_point : List ℚ) (_guess _start _end _geores : ℚ) (hcurve : s.curve = some c) :
    ((∃ e, localClosestPointSearch K s ref_point _guess _start _end _geores = .error e) ↔
      (K.s1774 c ref_point s.dimension _geores (min _start _end) (max _start _end)
        _guess).2 < 0) ∧
    (¬ (K.s1774 c ref_point s.dimension _geores (min _start _end) (max _start _end)
        _guess).2 < 0 →
      ∃ r, localClosestPointSearch K s ref_point _guess _start _end _geores = .ok r ∧
        min _start _end ≤ r ∧ r ≤ max _start _end ∧
        (min _start _end ≤
            (K.s1774 c ref_point s.dimension _geores (min _start _end) (max _start _end)
              _guess).1 →
          (K.s1774 c ref_point s.dimension _geores (min _start _end) (max _start _end)
              _guess).1 ≤ max _start _end →
          r = (K.s1774 c ref_point s.dimension _geores (min _start _end) (max _start _end)
              _guess).1)) := by
  unfold localClosestPointSearch
  rw [hcurve]
  simp only [swapped_bounds]
  generalize K.s1774 c ref_point s.dimension _geores (min _start _end) (max _start _end)
    _guess = kr
  have hlohi : min _start _end ≤ max _start _end := min_le_max
  by_cases hstatus : kr.2 < 0
  · simp [hstatus]
  · simp only [hstatus, if_false]
    refine ⟨by simp; split_ifs <;> simp, fun _ => ?_⟩
    by_cases hlo : kr.1 < min _start _end
    · exact ⟨_, by rw [if_pos hlo], le_refl _, hlohi, fun h _ => absurd h (not_le.mpr hlo)⟩
    · rw [if_neg hlo]
      by_cases hhi : kr.1 > max _start _end
      · exact ⟨_, by rw [if_pos hhi], hlohi, le_refl _, fun _ h => absurd h (not_le.mpr hhi)⟩
      · exact ⟨_, by rw [if_neg hhi], not_lt.mp hlo, not_lt.mp hhi, fun _ _ => rfl⟩

theorem localClosestPointSearch_clamped_witness :
    ((∃ e, localClosestPointSearch segmentSisl segmentCurve [1 / 2, 1, 0] 2 1 0 (1 / 10)
        = .error e) ↔
      (segmentSisl.s1774 unitSegment [1 / 2, 1, 0] segmentCurve.dimension (1 / 10)
        (min 1 0) (max 1 0) 2).2 < 0) ∧
    (¬ (segmentSisl.s1774 unitSegment [1 / 2, 1, 0] segmentCurve.dimension (1 / 10)
        (min 1 0) (max 1 0) 2).2 < 0 →
      ∃ r, localClosestPointSearch segmentSisl segmentCurve [1 / 2, 1, 0] 2 1 0 (1 / 10)
          = .ok r ∧
        min 1 0 ≤ r ∧ r ≤ max 1 0 ∧
        (min 1 0 ≤
            (segmentSisl.s1774 unitSegment [1 / 2, 1, 0] segmentCurve.dimension (1 / 10)
              (min 1 0) (max 1 0) 2).1 →
          (segmentSisl.s1774 unitSegment [1 / 2, 1, 0] segmentCurve.dimension (1 / 10)
              (min 1 0) (max 1 0) 2).1 ≤ max 1 0 →
          r = (segmentSisl.s1774 unitSegment [1 / 2, 1, 0] segmentCurve.dimension (1 / 10)
              (min 1 0) (max 1 0) 2).1)) :=
  localClosestPointSearch_clamped segmentSisl segmentCurve unitSegment [1 / 2, 1, 0] 2 1 0
    (1 / 10) rfl

/-! ## Heading error (C4) -/

theorem M_PI_pos : 0 < M_PI := by
  unfold M_PI; norm_num

theorem angleLimit_cases (angle : ℚ) :
    (angleLimit angle = angle - 2 * M_PI ∧ M_PI < angle) ∨
    (angleLimit angle = angle + 2 * M_PI ∧ angle < -M_PI) ∨
    (angleLimit angle = angle ∧ -M_PI ≤ angle ∧ angle ≤ M_PI) := by
  have hpi := M_PI_pos
  unfold angleLimit
  by_cases h1 : angle > M_PI
  · left; exact ⟨by rw [if_pos h1], h1⟩
  · rw [if_neg h1]
    by_cases h2 : angle < -M_PI
    · right; left; exact ⟨by rw [if_pos h2], h2⟩
    · right; right; exact ⟨by rw [if_neg h2], not_lt.mp h2, not_lt.mp h1⟩

/-- C4 as stated fails: with the heading 0 of the unit segment and an actual heading of 10
radians the heading error is 10 - 2*M_PI, which is greater than M_PI. -/
theorem headingError_not_normalized :
    getHeading segmentSisl axisLibm segmentCurve 0 = .ok 0 ∧
    headingError segmentSisl axisLibm segmentCurve 10 0 = .ok (10 - 2 * M_PI) ∧
    ¬ (-M_PI ≤ 10 - 2 * M_PI ∧ 10 - 2 * M_PI ≤ M_PI) := by
  have hh : getHeading segmentSisl axisLibm segmentCurve 0 = .ok 0 := by
    simp [getHeading, getFrenetFrame, segmentCurve, segmentSisl, axisLibm]
  refine ⟨hh, ?_, ?_⟩
  · unfold headingError
    rw [hh]
    simp only [angleLimit, M_PI]
    norm_num
  · unfold M_PI; norm_num

theorem getHeading_is_atan2 (K : Sisl) (M : Libm) (s : SplineBase) (_param heading : ℚ)
    (hheading : getHeading K M s _param = .ok heading) :
    ∃ y x : ℚ, heading = M.atan2 y x := by
  unfold getHeading at hheading
  cases hframe : getFrenetFrame K s _param with
  | error e => rw [hframe] at hheading; cases hheading
  | ok frame =>
    rw [hframe] at hheading
    simp only [Except.ok.injEq] at hheading
    exact ⟨_, _, hheading.symm⟩

theorem axisLibm_atan2_range (y x : ℚ) :
    -M_PI ≤ axisLibm.atan2 y x ∧ axisLibm.atan2 y x ≤ M_PI := by
  have hpi := M_PI_pos
  simp only [axisLibm]
  split_ifs <;> constructor <;> linarith

/-- C4, amended: wherever `heading(param)` is defined, `headingError(actualHeading, param)`
is `actualHeading - heading(param)` plus k * 2*M_PI with k one of -1, 0, 1 (a single wrap),
and it lies in the interval from -M_PI to M_PI exactly when
|actualHeading - heading(param)| <= 3*M_PI; in particular, when `atan2` returns values
from -M_PI to M_PI only, it lies in that interval for every actual heading from -2*M_PI to
2*M_PI. -/
theorem headingError_single_wrap (K : Sisl) (M : Libm) (s : SplineBase)
    (_actHeading _param heading : ℚ) (hheading : getHeading K M s _param = .ok heading) :
    ∃ r, headingError K M s _actHeading _param = .ok r ∧
      (∃ k : ℤ, (k = -1 ∨ k = 0 ∨ k = 1) ∧ r = _actHeading - heading + k * (2 * M_PI)) ∧
      ((-M_PI ≤ r ∧ r ≤ M_PI) ↔ |_actHeading - heading| ≤ 3 * M_PI) ∧
      ((∀ y x : ℚ, -M_PI ≤ M.atan2 y x ∧ M.atan2 y x ≤ M_PI) →
        |_actHeading| ≤ 2 * M_PI → -M_PI ≤ r ∧ r ≤ M_PI) := by
  have hpi := M_PI_pos
  have hiff : (-M_PI ≤ angleLimit (_actHeading - heading) ∧
      angleLimit (_actHeading - heading) ≤ M_PI) ↔ |_actHeading - heading| ≤ 3 * M_PI := by
    rw [abs_le]
    rcases angleLimit_cases (_actHeading - heading) with ⟨h, hc⟩ | ⟨h, hc⟩ | ⟨h, hc1, hc2⟩
    · rw [h]; constructor
      · rintro ⟨_, h2⟩; constructor <;> linarith
      · rintro ⟨_, h2⟩; constructor <;> linarith
    · rw [h]; constructor
      · rintro ⟨h1, _⟩; constructor <;> linarith
      · rintro ⟨h1, _⟩; constructor <;> linarith
    · rw [h]; constructor
      · rintro ⟨h1, h2⟩; constructor <;> linarith
      · rintro _; exact ⟨hc1, hc2⟩
  refine ⟨angleLimit (_actHeading - heading), by unfold headingError; rw [hheading], ?_,
    hiff, ?_⟩
  · rcases angleLimit_cases (_actHeading - heading) with ⟨h, _⟩ | ⟨h, _⟩ | ⟨h, _⟩
    · exact ⟨-1, Or.inl rfl, by rw [h]; push_cast; ring⟩
    · exact ⟨1, Or.inr (Or.inr rfl), by rw [h]; push_cast; ring⟩
    · exact ⟨0, Or.inr (Or.inl rfl), by rw [h]; push_cast; ring⟩
  · intro hatan hact
    obtain ⟨y, x, hyx⟩ := getHeading_is_atan2 K M s _param heading hheading
    obtain ⟨hlo, hhi⟩ := hatan y x
    rw [← hyx] at hlo hhi
    obtain ⟨alo, ahi⟩ := abs_le.mp hact
    apply hiff.mpr
    rw [abs_le]
    constructor <;> linarith

theorem headingError_single_wrap_witness :
    getHeading segmentSisl axisLibm segmentCurve 0 = .ok 0 ∧
    (∀ y x : ℚ, -M_PI ≤ axisLibm.atan2 y x ∧ axisLibm.atan2 y x ≤ M_PI) ∧
    |(4 : ℚ)| ≤ 2 * M_PI ∧
    ∃ r, headingError segmentSisl axisLibm segmentCurve 4 0 = .ok r ∧
      (∃ k : ℤ, (k = -1 ∨ k = 0 ∨ k = 1) ∧ r = 4 - 0 + k * (2 * M_PI)) ∧
      ((-M_PI ≤ r ∧ r ≤ M_PI) ↔ |(4 : ℚ) - 0| ≤ 3 * M_PI) ∧
      (-M_PI ≤ r ∧ r ≤ M_PI) := by
  have hheading : getHeading segmentSisl axisLibm segmentCurve 0 = .ok 0 := by
    simp [getHeading, getFrenetFrame, segmentCurve, segmentSisl, axisLibm]
  have hact : |(4 : ℚ)| ≤ 2 * M_PI := by
    rw [abs_of_nonneg (by norm_num)]; unfold M_PI; norm_num
  obtain ⟨r, h1, h2, h3, h4⟩ :=
    headingError_single_wrap segmentSisl axisLibm segmentCurve 4 0 0 hheading
  exact ⟨hheading, axisLibm_atan2_range, hact, r, h1, h2, h3, h4 axisLibm_atan2_range hact⟩

/-! ## Cache flags and representation (C5, C6, C7) -/

/-- C5, evaluated on the code: `simplify` leaves both validity flags and both cached values
as they were, on every path.  On the unit segment whose length 1 has been queried,
`simplify(1/10)` succeeds and replaces the curve by one of length 9/10 for the kernel, yet
the flag stays true and the next `getCurveLength()` returns the cached 1. -/
theorem simplify_keeps_stale_caches :
    (∀ (K : Sisl) (s : SplineBase) (tolerance : ℚ),
      (simplify K s tolerance).state.has_curve_length = s.has_curve_length ∧
      (simplify K s tolerance).state.has_curvature_max = s.has_curvature_max ∧
      (simplify K s tolerance).state.curve_length = s.curve_length ∧
      (simplify K s tolerance).state.curvature_max = s.curvature_max) ∧
    (getCurveLength segmentSisl segmentCurve).result = .ok 1 ∧
    (simplify segmentSisl (getCurveLength segmentSisl segmentCurve).state (1 / 10)).result
      = .ok [1 / 10, 0, 0] ∧
    (simplify segmentSisl (getCurveLength segmentSisl segmentCurve).state
      (1 / 10)).state.has_curve_length = true ∧
    (getCurveLength segmentSisl
      (simplify segmentSisl (getCurveLength segmentSisl segmentCurve).state
        (1 / 10)).state).result = .ok 1 ∧
    (simplify segmentSisl (getCurveLength segmentSisl segmentCurve).state
      (1 / 10)).state.curve.map (fun c => segmentSisl.s1240 c (1 / 10)) = some (9 / 10, 0) := by
  refine ⟨?_, rfl, rfl, rfl, rfl, ?_⟩
  · intro K s tolerance
    unfold simplify
    cases s.curve with
    | none => exact ⟨rfl, rfl, rfl, rfl⟩
    | some c =>
      simp only
      split_ifs <;> exact ⟨rfl, rfl, rfl, rfl⟩
  · simp [simplify, getCurveLength, segmentCurve, segmentSisl, unitSegment, segmentLength]
    norm_num

/-- C6, evaluated on the code: a curve is fitted through two points, its length is queried
(1), and `reset` with empty coordinates makes it empty; `getCurveLength()` then returns the
cached 1 instead of failing.  The same happens after `clear()` on a singleton, whose length
0 is cached by `interpolate`. -/
theorem getCurveLength_on_emptied_curve :
    (interpolate segmentSisl (new 3 (1 / 10) 2) [0, 0, 0, 1, 0, 0] []).result = .ok () ∧
    (getCurveLength segmentSisl
      (interpolate segmentSisl (new 3 (1 / 10) 2) [0, 0, 0, 1, 0, 0] []).state).result
      = .ok 1 ∧
    (reset segmentSisl
      (getCurveLength segmentSisl
        (interpolate segmentSisl (new 3 (1 / 10) 2) [0, 0, 0, 1, 0, 0] []).state).state
      [] [] (-1)).result = .ok () ∧
    isEmpty (reset segmentSisl
      (getCurveLength segmentSisl
        (interpolate segmentSisl (new 3 (1 / 10) 2) [0, 0, 0, 1, 0, 0] []).state).state
      [] [] (-1)).state = true ∧
    (getCurveLength segmentSisl
      (reset segmentSisl
        (getCurveLength segmentSisl
          (interpolate segmentSisl (new 3 (1 / 10) 2) [0, 0, 0, 1, 0, 0] []).state).state
        [] [] (-1)).state).result = .ok 1 ∧
    isEmpty (clear (interpolate segmentSisl (new 3 (1 / 10) 2) [1, 2, 3] []).state) = true ∧
    (getCurveLength segmentSisl
      (clear (interpolate segmentSisl (new 3 (1 / 10) 2) [1, 2, 3] []).state)).result
      = .ok 0 :=
  ⟨rfl, rfl, rfl, rfl, rfl, rfl, rfl⟩

/-- C7, evaluated on the code: a curve is fitted through two points and `reset` is called
with exactly one coordinate tuple; afterwards the singleton vector is non-empty while the
kernel curve handle is still held, so the curve is at once a singleton and a curve, and
`getPointCount()` answers from the curve handle. -/
theorem reset_single_tuple_keeps_curve :
    (interpolate segmentSisl (new 3 (1 / 10) 2) [0, 0, 0, 1, 0, 0] []).state.curve
      = some unitSegment ∧
    (interpolate segmentSisl (new 3 (1 / 10) 2) [0, 0, 0, 1, 0, 0] []).state.singleton = [] ∧
    (reset segmentSisl
      (interpolate segmentSisl (new 3 (1 / 10) 2) [0, 0, 0, 1, 0, 0] []).state
      [7, 8, 9] [] (-1)).result = .ok () ∧
    (reset segmentSisl
      (interpolate segmentSisl (new 3 (1 / 10) 2) [0, 0, 0, 1, 0, 0] []).state
      [7, 8, 9] [] (-1)).state.singleton = [7, 8, 9] ∧
    (reset segmentSisl
      (interpolate segmentSisl (new 3 (1 / 10) 2) [0, 0, 0, 1, 0, 0] []).state
      [7, 8, 9] [] (-1)).state.curve = some unitSegment ∧
    isSingleton (reset segmentSisl
      (interpolate segmentSisl (new 3 (1 / 10) 2) [0, 0, 0, 1, 0, 0] []).state
      [7, 8, 9] [] (-1)).state = true ∧
    getPointCount (reset segmentSisl
      (interpolate segmentSisl (new 3 (1 / 10) 2) [0, 0, 0, 1, 0, 0] []).state
      [7, 8, 9] [] (-1)).state = 2 :=
  ⟨rfl, rfl, rfl, rfl, rfl, rfl, rfl⟩

/-! ## Zero points (C8) -/

theorem zero_points_outcome (K : Sisl) (s : SplineBase) (points parameters : List ℚ)
    (hzero : (points.length : Int) < s.dimension) :
    interpolate K s points parameters =
      ⟨{ s with singleton := [], curve := none, start_param := 0, end_param := 0,
                has_curve_length := false, has_curvature_max := false }, .ok ()⟩ := by
  have hlt : points.length < s.dimension.toNat := by omega
  have hdiv : points.length / s.dimension.toNat = 0 := Nat.div_eq_of_lt hlt
  unfold interpolate clear
  cases hc : s.curve <;> simp [hc, hdiv]

/-- C8 as stated fails: after `interpolate` with zero points `findOneClosestPoint` and
`localClosestPointSearch` do not fail, they return the start parameter 0. -/
theorem queries_on_zero_points_not_all_failing :
    isEmpty (interpolate segmentSisl (new 3 (1 / 10) 2) [] []).state = true ∧
    findOneClosestPoint segmentSisl (interpolate segmentSisl (new 3 (1 / 10) 2) [] []).state
      [0, 0, 0] 0 (1 / 10) = .ok 0 ∧
    localClosestPointSearch segmentSisl
      (interpolate segmentSisl (new 3 (1 / 10) 2) [] []).state [0, 0, 0] 0 0 1 (1 / 10)
      = .ok 0 :=
  ⟨rfl, rfl, rfl⟩

/-- C8, amended: after `interpolate` with zero points (fewer coordinates than one point
has) the call has succeeded, the curve is empty and `getPointCount()` is 0; `pointAt` and
`pointAndTangentAt` fail with an out-of-range error for every parameter other than 0;
`curvatureAt` and `variationOfCurvature` fail for every parameter; `curveLength`,
`curvatureMax` and `frenetFrame` fail; `findOneClosestPoint` and `localClosestPointSearch`
do not fail: they return the start parameter 0 for every argument. -/
theorem interpolate_zero_points (K : Sisl) (s : SplineBase) (points parameters : List ℚ)
    (hzero : (points.length : Int) < s.dimension) :
    ∃ e : SplineBase, interpolate K s points parameters = ⟨e, .ok ()⟩ ∧
      isEmpty e = true ∧ getPointCount e = 0 ∧
      (∀ (result : List ℚ) (param : ℚ), param ≠ 0 →
        getPoint K e result param
          = .error (.out_of_range "_param is not in the [start_param, end_param] range") ∧
        getPointAndTangent K e result param
          = .error (.out_of_range "_param is not in the [start_param, end_param] range")) ∧
      (∀ param : ℚ, ∃ err, getCurvature K e param = .error err) ∧
      (∀ param : ℚ, ∃ err, getVariationOfCurvature K e param = .error err) ∧
      (∃ err, (getCurveLength K e).result = .error err) ∧
      (∀ fuel : Nat, ∃ o err, getCurvatureMax K e fuel = some o ∧ o.result = .error err) ∧
      (∀ param : ℚ, ∃ err, getFrenetFrame K e param = .error err) ∧
      (∀ (pt : List ℚ) (guess geores : ℚ), findOneClosestPoint K e pt guess geores = .ok 0) ∧
      (∀ (pt : List ℚ) (guess a b geores : ℚ),
        localClosestPointSearch K e pt guess a b geores = .ok 0) := by
  refine ⟨_, zero_points_outcome K s points parameters hzero, ?_, ?_, ?_, ?_, ?_,
    ?_, ?_, ?_, ?_, ?_⟩
  · simp [isEmpty]
  · simp [getPointCount]
  · intro result param hparam
    have hout : param < 0 ∨ param > 0 := lt_or_gt_of_ne hparam
    simp [getPoint, getPointAndTangent, getPointAndTangentHelper, hout]
  · intro param
    unfold getCurvature
    split_ifs <;> exact ⟨_, rfl⟩
  · intro param
    unfold getVariationOfCurvature
    split_ifs <;> exact ⟨_, rfl⟩
  · exact ⟨_, rfl⟩
  · intro fuel
    exact ⟨_, _, rfl, rfl⟩
  · intro param
    exact ⟨_, rfl⟩
  · intro pt guess geores
    rfl
  · intro pt guess a b geores
    rfl

theorem interpolate_zero_points_witness :
    ∃ e : SplineBase, interpolate segmentSisl segmentCurve [] [] = ⟨e, .ok ()⟩ ∧
      isEmpty e = true ∧ getPointCount e = 0 ∧
      (∀ (result : List ℚ) (param : ℚ), param ≠ 0 →
        getPoint segmentSisl e result param
          = .error (.out_of_range "_param is not in the [start_param, end_param] range") ∧
        getPointAndTangent segmentSisl e result param
          = .error (.out_of_range "_param is not in the [start_param, end_param] range")) ∧
      (∀ param : ℚ, ∃ err, getCurvature segmentSisl e param = .error err) ∧
      (∀ param : ℚ, ∃ err, getVariationOfCurvature segmentSisl e param = .error err) ∧
      (∃ err, (getCurveLength segmentSisl e).result = .error err) ∧
      (∀ fuel : Nat, ∃ o err,
        getCurvatureMax segmentSisl e fuel = some o ∧ o.result = .error err) ∧
      (∀ param : ℚ, ∃ err, getFrenetFrame segmentSisl e param = .error err) ∧
      (∀ (pt : List ℚ) (guess geores : ℚ),
        findOneClosestPoint segmentSisl e pt guess geores = .ok 0) ∧
      (∀ (pt : List ℚ) (guess a b geores : ℚ),
        localClosestPointSearch segmentSisl e pt guess a b geores = .ok 0) :=
  interpolate_zero_points segmentSisl segmentCurve [] [] (by decide)

/-! ## Composition (C9, C10) -/

theorem assign_of_empty (K : Sisl) (c e : SplineBase) (hempty : isEmpty e = true) :
    assign K c e = e := by
  have hcurve : e.curve = none := by
    cases hc : e.curve with
    | none => rfl
    | some _ => simp [isEmpty, hc] at hempty
  cases e
  simp only at hcurve
  subst hcurve
  rfl

/-- C9 as stated fails when the receiver is empty too: appending the empty curve of
dimension 2, resolution 1/2 and order 4 to the empty curve of dimension 3, resolution 1/10
and order 2 gives the receiver the dimension, resolution and order of the argument. -/
theorem empty_receiver_takes_argument_fields :
    isEmpty (new 3 (1 / 10) 2) = true ∧ isEmpty (new 2 (1 / 2) 4) = true ∧
    (append segmentSisl (new 3 (1 / 10) 2) (new 2 (1 / 2) 4)).result = .ok () ∧
    (new 3 (1 / 10) 2).dimension = 3 ∧
    (append segmentSisl (new 3 (1 / 10) 2) (new 2 (1 / 2) 4)).state.dimension = 2 ∧
    (append segmentSisl (new 3 (1 / 10) 2) (new 2 (1 / 2) 4)).state.curve_order = 4 ∧
    (append segmentSisl (new 3 (1 / 10) 2) (new 2 (1 / 2) 4)).state.geometric_resolution
      = 1 / 2 :=
  ⟨rfl, rfl, rfl, rfl, rfl, rfl, rfl⟩

/-- C9, amended: appending an empty curve `e` never fails; it leaves every field of a
receiver `c` that is not empty (a singleton or a genuine curve) unchanged; a receiver that
is itself empty becomes a copy of `e`: it stays empty and takes every field of `e`. -/
theorem append_empty (K : Sisl) (c e : SplineBase) (hempty : isEmpty e = true) :
    (append K c e).result = .ok () ∧
    (isEmpty c = false → (append K c e).state = c) ∧
    (isEmpty c = true → (append K c e).state = e ∧ isEmpty (append K c e).state = true) := by
  unfold append
  cases hc : isEmpty c
  · simp [hempty]
  · simp [hempty, assign_of_empty K c e hempty]

theorem append_empty_witness :
    (append segmentSisl segmentCurve (new 3 (1 / 10) 2)).result = .ok () ∧
    (isEmpty segmentCurve = false →
      (append segmentSisl segmentCurve (new 3 (1 / 10) 2)).state = segmentCurve) ∧
    (isEmpty segmentCurve = true →
      (append segmentSisl segmentCurve (new 3 (1 / 10) 2)).state = new 3 (1 / 10) 2 ∧
      isEmpty (append segmentSisl segmentCurve (new 3 (1 / 10) 2)).state = true) :=
  append_empty segmentSisl segmentCurve (new 3 (1 / 10) 2) rfl

/-- C10 as stated fails for two singletons: for the points (0, 0, 0) and (1, 0, 0), at
distance 1, and the tolerance 2, `join` interpolates the line through both and the receiver
becomes a genuine curve, while `append` leaves the receiver the singleton it was. -/
theorem join_of_singletons_is_not_append :
    isSingleton pointA = true ∧ isSingleton pointB = true ∧
    (append segmentSisl pointA pointB).result = .ok () ∧
    (append segmentSisl pointA pointB).state = pointA ∧
    (join segmentSisl axisLibm pointA pointB 2).result = .ok () ∧
    (join segmentSisl axisLibm pointA pointB 2).state.singleton = [] ∧
    (join segmentSisl axisLibm pointA pointB 2).state.curve = some unitSegment :=
  ⟨rfl, rfl, rfl, rfl, rfl, rfl, rfl⟩

theorem join_of_two_singletons (K : Sisl) (M : Libm) (s other : SplineBase) (tolerance : ℚ)
    (hdim : getDimension other = getDimension s)
    (hs : isEmpty s = false) (ho : isEmpty other = false)
    (hboth : (isSingleton s && isSingleton other) = true) :
    join K M s other tolerance =
      interpolate K s
        (writeAt (writeAt (List.replicate (getDimension s * 2).toNat 0) 0 s.singleton)
          (getDimension s).toNat other.singleton) [] := by
  unfold join
  simp only [hdim, hs, ho, hboth]
  simp

/-! ## Buffers -/

theorem writeAt_cons_succ (x : ℚ) :
    ∀ (vals buf : List ℚ) (off : Nat),
      writeAt (x :: buf) (off + 1) vals = x :: writeAt buf off vals := by
  intro vals
  induction vals with
  | nil => intro buf off; rfl
  | cons v vals ih =>
    intro buf off
    simp only [writeAt, List.set_cons_succ]
    exact ih (buf.set off v) (off + 1)

theorem writeAt_zero :
    ∀ (vals buf : List ℚ), vals.length ≤ buf.length →
      writeAt buf 0 vals = vals ++ buf.drop vals.length := by
  intro vals
  induction vals with
  | nil => intro buf _; rfl
  | cons v vals ih =>
    intro buf h
    cases buf with
    | nil => simp at h
    | cons b buf =>
      simp only [List.length_cons, Nat.add_le_add_iff_right] at h
      simp only [writeAt, List.set_cons_zero, List.length_cons, List.drop_succ_cons,
        List.cons_append]
      rw [writeAt_cons_succ, ih buf h]

theorem writeAt_offset :
    ∀ (off : Nat) (buf vals : List ℚ),
      writeAt buf off vals = buf.take off ++ writeAt (buf.drop off) 0 vals := by
  intro off
  induction off with
  | zero => intro buf vals; rfl
  | succ off ih =>
    intro buf vals
    cases buf with
    | nil =>
      have hnil : ∀ (vals : List ℚ) (k : Nat), writeAt [] k vals = [] := by
        intro vals
        induction vals with
        | nil => intro k; rfl
        | cons v vals ihv => intro k; simp only [writeAt, List.set_nil]; exact ihv (k + 1)
      simp [hnil]
    | cons b buf =>
      rw [writeAt_cons_succ, ih buf vals]
      rfl

theorem writeAt_append :
    ∀ (xs ys buf : List ℚ) (off : Nat),
      writeAt buf off (xs ++ ys) = writeAt (writeAt buf off xs) (off + xs.length) ys := by
  intro xs
  induction xs with
  | nil => intro ys buf off; rfl
  | cons x xs ih =>
    intro ys buf off
    have h := ih ys (buf.set off x) (off + 1)
    have hoff : off + 1 + xs.length = off + (xs.length + 1) := by omega
    rw [hoff] at h
    simpa only [List.cons_append, writeAt, List.length_cons] using h

theorem zero_loop_eq_writeAt (d : Nat) :
    ∀ (n : Nat) (buf : List ℚ),
      (List.range n).foldl (fun b i => b.set (i + d) 0) buf
        = writeAt buf d (List.replicate n 0) := by
  intro n
  induction n with
  | zero => intro buf; rfl
  | succ n ih =>
    intro buf
    rw [List.range_succ, List.foldl_append, ih buf, List.replicate_succ',
      writeAt_append]
    simp only [List.foldl_cons, List.foldl_nil, List.length_replicate, writeAt]
    rw [Nat.add_comm]

/-! ## One point (C11) -/

theorem handleFreed_sources (K : Sisl) :
    (∀ (dim : Int) (res : ℚ) (order : Int), handleFreed (new dim res order) = false) ∧
    (∀ s : SplineBase, handleFreed (clear s) = false) ∧
    (∀ (s : SplineBase) (points parameters : List ℚ),
      handleFreed (interpolate K s points parameters).state = false) ∧
    (∀ (s : SplineBase) (new_curve : SISLCurve),
      handleFreed (resetCurve K s new_curve).state = false) ∧
    (∀ (s : SplineBase) (c : SISLCurve) (coordinates knots : List ℚ) (kind : Int),
      s.curve = some c → coordinates ≠ [] → (coordinates.length : Int) = s.dimension →
      handleFreed (reset K s coordinates knots kind).state = true) := by
  refine ⟨fun _ _ _ => rfl, ?_, ?_, ?_, ?_⟩
  · intro s
    unfold clear handleFreed
    cases s.curve <;> simp
  · intro s points parameters
    unfold interpolate clear handleFreed
    cases s.curve <;> simp only <;> split_ifs <;> simp
  · intro s new_curve
    unfold resetCurve handleFreed
    simp only
    split_ifs <;> simp
  · intro s c coordinates knots kind hc hne hlen
    have hemp : coordinates.isEmpty = false := by
      cases coordinates with
      | nil => exact absurd rfl hne
      | cons _ _ => rfl
    unfold reset handleFreed
    simp [hemp, hlen, hc]

theorem one_point_outcome (K : Sisl) (s : SplineBase) (points parameters : List ℚ)
    (hdim : 0 < s.dimension) (hone : (points.length : Int) = s.dimension) :
    interpolate K s points parameters =
      ⟨{ s with singleton := points, curve := none, start_param := 0, end_param := 0,
                has_curve_length := true, curve_length := 0, has_curvature_max := false },
       .ok ()⟩ := by
  have hlen : s.dimension.toNat = points.length := by omega
  have hpos : 0 < points.length := by omega
  have hdiv : points.length / s.dimension.toNat = 1 := by
    rw [hlen]; exact Nat.div_self hpos
  unfold interpolate clear
  cases hc : s.curve <;> simp [hc, hdiv]

/-- C11: after `interpolate` with exactly one point (a vector of exactly `dimension`
coordinates, `dimension` positive), applied to a curve in any prior state whose kernel
handle, if it holds one, has not been freed, the call has succeeded and the curve is a
singleton without kernel curve: `getPointCount()` is 1,
`getCurveLength()` returns 0, the start and the end parameter are 0, `getPoint` at 0 writes
exactly the given point to the head of the result memory, `getPointAndTangent` at 0 writes
the point followed by `dimension` zeros, and `getPoint` fails with an out-of-range error
for every parameter other than 0. -/
theorem interpolate_one_point (K : Sisl) (s : SplineBase) (points parameters : List ℚ)
    (_hvalid : handleFreed s = false)
    (hdim : 0 < s.dimension) (hone : (points.length : Int) = s.dimension) :
    ∃ e : SplineBase, interpolate K s points parameters = ⟨e, .ok ()⟩ ∧
      isSingleton e = true ∧ isEmpty e = false ∧ e.curve = none ∧
      getPointCount e = 1 ∧
      (getCurveLength K e).result = .ok 0 ∧
      getStartParam e = 0 ∧ getEndParam e = 0 ∧
      (∀ result : List ℚ, points.length ≤ result.length →
        getPoint K e result 0 = .ok (points ++ result.drop points.length)) ∧
      (∀ result : List ℚ, 2 * points.length ≤ result.length →
        getPointAndTangent K e result 0
          = .ok (points ++ List.replicate points.length 0
              ++ result.drop (2 * points.length))) ∧
      (∀ (result : List ℚ) (param : ℚ), param ≠ 0 →
        getPoint K e result param
          = .error (.out_of_range "_param is not in the [start_param, end_param] range")) := by
  have hlen : s.dimension.toNat = points.length := by omega
  have hne : points ≠ [] := by
    intro h; rw [h] at hone; simp at hone; omega
  refine ⟨_, one_point_outcome K s points parameters hdim hone, ?_, ?_, rfl, ?_, rfl, rfl,
    rfl, ?_, ?_, ?_⟩
  · simp [isSingleton, hne]
  · simp [isEmpty, hne]
  · simp [getPointCount, hne]
  · intro result hres
    simp [getPoint, getPointAndTangentHelper, writeAt_zero points result hres]
  · intro result hres
    have h1 : points.length ≤ result.length := by omega
    simp only [getPointAndTangent, getPointAndTangentHelper, getDimension, hlen,
      zero_loop_eq_writeAt, writeAt_zero points result h1]
    have h2 : (List.replicate points.length (0 : ℚ)).length
        ≤ (result.drop points.length).length := by
      simp; omega
    rw [writeAt_offset, List.take_left, List.drop_left, writeAt_zero _ _ h2]
    simp [two_mul, List.append_assoc]
  · intro result param hparam
    have hout : param < 0 ∨ param > 0 := lt_or_gt_of_ne hparam
    simp [getPoint, getPointAndTangentHelper, hout]

theorem interpolate_one_point_witness :
    ∃ e : SplineBase, interpolate segmentSisl segmentCurve [7, 8, 9] [] = ⟨e, .ok ()⟩ ∧
      isSingleton e = true ∧ isEmpty e = false ∧ e.curve = none ∧
      getPointCount e = 1 ∧
      (getCurveLength segmentSisl e).result = .ok 0 ∧
      getStartParam e = 0 ∧ getEndParam e = 0 ∧
      (∀ result : List ℚ, [(7 : ℚ), 8, 9].length ≤ result.length →
        getPoint segmentSisl e result 0 = .ok ([7, 8, 9] ++ result.drop [(7 : ℚ), 8, 9].length)) ∧
      (∀ result : List ℚ, 2 * [(7 : ℚ), 8, 9].length ≤ result.length →
        getPointAndTangent segmentSisl e result 0
          = .ok ([7, 8, 9] ++ List.replicate [(7 : ℚ), 8, 9].length 0
              ++ result.drop (2 * [(7 : ℚ), 8, 9].length))) ∧
      (∀ (result : List ℚ) (param : ℚ), param ≠ 0 →
        getPoint segmentSisl e result param
          = .error (.out_of_range "_param is not in the [start_param, end_param] range")) :=
  interpolate_one_point segmentSisl segmentCurve [7, 8, 9] [] rfl (by decide) (by decide)

/-! ## Round trip through the explicit representation (C12) -/

/-- C12 as stated fails for a genuine curve with a single vertex: the coordinates of
`vertexSpline` are the `dimension` numbers 1, 2, 3, `reset` takes them for one tuple and
makes the receiver a singleton of range [0, 0] without knots, whereas the curve has the
knots 0, 1, the kind 1 and the range [0, 1]. -/
theorem round_trip_of_single_vertex :
    ofCurve knotSisl (1 / 10) vertexCurve = .ok vertexSpline ∧
    getCoordinates vertexSpline = [1, 2, 3] ∧ getKnots vertexSpline = [0, 1] ∧
    getSISLCurveType vertexSpline = 1 ∧
    (reset knotSisl (new 3 (1 / 10) 1) (getCoordinates vertexSpline)
      (getKnots vertexSpline) (getSISLCurveType vertexSpline)).result = .ok () ∧
    (reset knotSisl (new 3 (1 / 10) 1) (getCoordinates vertexSpline)
      (getKnots vertexSpline) (getSISLCurveType vertexSpline)).state.curve = none ∧
    (reset knotSisl (new 3 (1 / 10) 1) (getCoordinates vertexSpline)
      (getKnots vertexSpline) (getSISLCurveType vertexSpline)).state.singleton
      = [1, 2, 3] ∧
    getKnots (reset knotSisl (new 3 (1 / 10) 1) (getCoordinates vertexSpline)
      (getKnots vertexSpline) (getSISLCurveType vertexSpline)).state = [] ∧
    getSISLCurveType (reset knotSisl (new 3 (1 / 10) 1) (getCoordinates vertexSpline)
      (getKnots vertexSpline) (getSISLCurveType vertexSpline)).state = 0 ∧
    (reset knotSisl (new 3 (1 / 10) 1) (getCoordinates vertexSpline)
      (getKnots vertexSpline) (getSISLCurveType vertexSpline)).state.end_param = 0 ∧
    vertexSpline.end_param = 1 :=
  ⟨rfl, rfl, rfl, rfl, rfl, rfl, rfl, rfl, rfl, rfl, rfl⟩
theorem Genuine.isNURBS_iff {K : Sisl} {c : SplineBase} {cv : SISLCurve}
    (h : Genuine K c cv) : isNURBS c = true ↔ (cv.ikind = 2 ∨ cv.ikind = 4) := by
  simp [isNURBS, h.curve_eq]

theorem Genuine.stride_eq {K : Sisl} {c : SplineBase} {cv : SISLCurve}
    (h : Genuine K c cv) : getCoordinatesStride c = coordinatesStride cv := by
  unfold getCoordinatesStride coordinatesStride
  rw [h.dim_eq]
  by_cases hk : cv.ikind = 2 ∨ cv.ikind = 4
  · rw [if_pos hk, if_pos (h.isNURBS_iff.mpr hk)]
  · have hn : ¬ isNURBS c = true := fun hb => hk (h.isNURBS_iff.mp hb)
    rw [if_neg hk, if_neg hn]

theorem Genuine.stride_pos {K : Sisl} {c : SplineBase} {cv : SISLCurve}
    (h : Genuine K c cv) : 0 < coordinatesStride cv := by
  have hpos := h.dim_pos
  have hd := h.dim_eq
  unfold coordinatesStride
  split_ifs <;> omega

theorem Genuine.getCoordinates_eq {K : Sisl} {c : SplineBase} {cv : SISLCurve}
    (h : Genuine K c cv) : getCoordinates c = controlPoints cv := by
  have hnurbs := h.isNURBS_iff
  unfold getCoordinates
  simp only [h.singleton_eq, h.curve_eq, getPointCount, List.isEmpty_nil, Bool.not_true,
    Bool.false_eq_true, if_false]
  unfold controlPoints controlCoordinates coordinatesStride
  rw [h.dim_eq]
  by_cases hk : cv.ikind = 2 ∨ cv.ikind = 4
  · simp only [if_pos hk, hnurbs.mpr hk, if_true]
  · have hn : isNURBS c = false := by
      cases hb : isNURBS c
      · rfl
      · exact absurd (hnurbs.mp hb) hk
    simp only [if_neg hk, hn, Bool.false_eq_true, if_false]

theorem Genuine.getKnots_eq {K : Sisl} {c : SplineBase} {cv : SISLCurve}
    (h : Genuine K c cv) : getKnots c = knotVector cv := by
  unfold getKnots knotVector
  simp only [h.curve_eq, getPointCount, getCurveOrder, h.order_eq]

theorem Genuine.controlPoints_length {K : Sisl} {c : SplineBase} {cv : SISLCurve}
    (h : Genuine K c cv) :
    ((controlPoints cv).length : Int) = coordinatesStride cv * cv.in_ := by
  have hsize := h.coordinates_size
  have hs := h.stride_pos
  have hn := h.count_nonneg
  have hnn : 0 ≤ coordinatesStride cv * cv.in_ := Int.mul_nonneg (le_of_lt hs) hn
  unfold controlPoints
  rw [List.length_take]
  omega

theorem Genuine.knotVector_length {K : Sisl} {c : SplineBase} {cv : SISLCurve}
    (h : Genuine K c cv) : ((knotVector cv).length : Int) = cv.in_ + cv.ik := by
  have hsize := h.knots_size
  have hn := h.count_nonneg
  have hk := h.order_nonneg
  unfold knotVector
  rw [List.length_take]
  omega
theorem reset_of_genuine (K : Sisl) (c t : SplineBase) (cv : SISLCurve)
    (hc : Genuine K c cv) (hcount : 1 ≤ cv.in_)
    (hone : cv.in_ = 1 → (cv.ikind = 2 ∨ cv.ikind = 4))
    (htdim : t.dimension = c.dimension) :
    reset K t (controlPoints cv) (knotVector cv) cv.ikind
      = resetCurve K t
          (K.newCurve cv.in_ (getCurveOrder t) (knotVector cv) (controlPoints cv) cv.ikind
            t.dimension 1) := by
  have hsize := hc.controlPoints_length
  have hpos := hc.dim_pos
  have hstride := hc.stride_pos
  have hkind := hc.kind_range
  have hcd := hc.dim_eq
  have hS : (if cv.ikind = 2 ∨ cv.ikind = 4 then c.dimension + 1 else c.dimension)
      = coordinatesStride cv := by
    unfold coordinatesStride; rw [hcd]
  have hge : c.dimension ≤ coordinatesStride cv := by rw [← hS]; split_ifs <;> omega
  have hrat : cv.in_ = 1 → c.dimension < coordinatesStride cv := by
    intro h1
    rw [← hS, if_pos (hone h1)]
    omega
  generalize coordinatesStride cv = stride at hsize hstride hS hge hrat
  obtain ⟨n, hn⟩ := Int.eq_ofNat_of_zero_le hc.count_nonneg
  obtain ⟨m, hm⟩ := Int.eq_ofNat_of_zero_le (le_of_lt hstride)
  rw [hn, hm] at hsize
  have hlen : (controlPoints cv).length = m * n := by exact_mod_cast hsize
  have hm0 : 0 < m := by omega
  have hn1 : 1 ≤ n := by omega
  have hne : (controlPoints cv).isEmpty = false := by
    cases hl : controlPoints cv with
    | nil =>
      rw [hl] at hlen
      have : 0 < m * n := Nat.mul_pos hm0 hn1
      simp at hlen
      omega
    | cons _ _ => rfl
  have hnotdim : ¬ ((controlPoints cv).length : Int) = c.dimension := by
    rw [hlen]
    by_cases h1 : n = 1
    · have := hrat (by rw [hn, h1]; rfl)
      rw [h1]
      push_cast
      omega
    · have h2 : m * 2 ≤ m * n := Nat.mul_le_mul_left m (by omega)
      have h3 : ((m * 2 : Nat) : Int) ≤ ((m * n : Nat) : Int) := by exact_mod_cast h2
      push_cast at h3 ⊢
      omega
  have hkne : ¬ cv.ikind = -1 := by omega
  have hdiv : (controlPoints cv).length / stride.toNat = n := by
    rw [hlen, hm, Int.toNat_ofNat, Nat.mul_div_cancel_left n hm0]
  unfold reset
  simp only [hne, hnotdim, hkne, Bool.false_eq_true, if_false, htdim, hS, hdiv, hn]

theorem reset_of_single_vertex (K : Sisl) (c t : SplineBase) (cv : SISLCurve)
    (hc : Genuine K c cv) (hone : cv.in_ = 1) (hkind : ¬ (cv.ikind = 2 ∨ cv.ikind = 4))
    (htdim : t.dimension = c.dimension) :
    reset K t (controlPoints cv) (knotVector cv) cv.ikind
      = ⟨{ t with start_param := 0, end_param := 0, has_curvature_max := false,
                   has_curve_length := true, curve_length := 0,
                   singleton := controlPoints cv }, .ok ()⟩ := by
  have hsize := hc.controlPoints_length
  have hpos := hc.dim_pos
  have hcd := hc.dim_eq
  have hS : coordinatesStride cv = c.dimension := by
    unfold coordinatesStride; rw [if_neg hkind, hcd]
  rw [hS, hone, mul_one] at hsize
  have hne : (controlPoints cv).isEmpty = false := by
    cases hl : controlPoints cv with
    | nil => rw [hl] at hsize; simp at hsize; omega
    | cons _ _ => rfl
  unfold reset
  simp only [hne, Bool.false_eq_true, if_false, htdim, hsize, if_true]

theorem reset_of_no_vertex (K : Sisl) (c t : SplineBase) (cv : SISLCurve)
    (hc : Genuine K c cv) (hzero : cv.in_ = 0) :
    reset K t (controlPoints cv) (knotVector cv) cv.ikind = ⟨clear t, .ok ()⟩ := by
  have hsize := hc.controlPoints_length
  rw [hzero, mul_zero] at hsize
  have hnil : controlPoints cv = [] := by
    cases hl : controlPoints cv with
    | nil => rfl
    | cons _ _ => rw [hl] at hsize; simp at hsize; omega
  unfold reset
  simp [hnil]
theorem knotVector_cuopen (c : SISLCurve) (v : Int) :
    knotVector { c with cuopen := v } = knotVector c := rfl

theorem controlPoints_cuopen (c : SISLCurve) (v : Int) :
    controlPoints { c with cuopen := v } = controlPoints c := rfl

theorem le_length_of_take_length (l : List ℚ) (n : Int)
    (h : ((l.take n.toNat).length : Int) = n) : n ≤ (l.length : Int) := by
  rw [List.length_take] at h
  omega

/-- C12, amended: for every genuine curve `c` (its members agreeing with its kernel curve,
whose arrays hold at least the documented entries) and a kernel that builds curves from,
and evaluates them by, their explicit representation: `getCoordinates()` has
stride * pointCount entries and `getKnots()` has pointCount + order entries; when `c` has
at least one control point, and its kind is rational if it has exactly one,
`reset(c.getCoordinates(), c.getKnots(), kind of c)` on a curve of the same dimension and
order, whose handle has not been freed, succeeds and yields a genuine curve with the same control coordinates, knot vector,
kind and parameter range, hence the same `getPoint` result at every parameter; when `c` has
exactly one control point and a kind that is not rational, its coordinates are `dimension`
numbers and the same call makes the receiver a singleton at that point; when `c` has no
control point the call clears the receiver. -/
theorem reset_round_trip (K : Sisl) (c t : SplineBase) (cv : SISLCurve)
    (hK : ExplicitKernel K) (hc : Genuine K c cv) (_htvalid : handleFreed t = false)
    (htdim : t.dimension = c.dimension) (htord : t.curve_order = c.curve_order) :
    ((getCoordinates c).length : Int) = getCoordinatesStride c * getPointCount c ∧
    ((getKnots c).length : Int) = getPointCount c + getCurveOrder c ∧
    (1 ≤ getPointCount c → (getPointCount c = 1 → isNURBS c = true) →
      ∃ (r : SplineBase) (rv : SISLCurve),
        reset K t (getCoordinates c) (getKnots c) (getSISLCurveType c) = ⟨r, .ok ()⟩ ∧
        Genuine K r rv ∧ SameRepresentation rv cv ∧
        getCoordinates r = getCoordinates c ∧ getKnots r = getKnots c ∧
        getSISLCurveType r = getSISLCurveType c ∧
        getStartParam r = getStartParam c ∧ getEndParam r = getEndParam c ∧
        ∀ (result : List ℚ) (param : ℚ),
          getPoint K r result param = getPoint K c result param) ∧
    (getPointCount c = 1 → isNURBS c = false →
      ((getCoordinates c).length : Int) = c.dimension ∧
      reset K t (getCoordinates c) (getKnots c) (getSISLCurveType c)
        = ⟨{ t with start_param := 0, end_param := 0, has_curvature_max := false,
                     has_curve_length := true, curve_length := 0,
                     singleton := getCoordinates c }, .ok ()⟩) ∧
    (getPointCount c = 0 →
      reset K t (getCoordinates c) (getKnots c) (getSISLCurveType c)
        = ⟨clear t, .ok ()⟩) := by
  have hcoord := hc.getCoordinates_eq
  have hknots := hc.getKnots_eq
  have hkind : getSISLCurveType c = cv.ikind := by simp [getSISLCurveType, hc.curve_eq]
  have hcount : getPointCount c = cv.in_ := by simp [getPointCount, hc.curve_eq]
  have hnurbs := hc.isNURBS_iff
  rw [hcoord, hknots, hkind, hcount, hc.stride_eq]
  refine ⟨hc.controlPoints_length, ?_, ?_, ?_, ?_⟩
  · rw [getCurveOrder, ← hc.order_eq]; exact hc.knotVector_length
  · intro hone hrat
    have hrat1 : cv.in_ = 1 → (cv.ikind = 2 ∨ cv.ikind = 4) := fun h => hnurbs.mp (hrat h)
    rw [reset_of_genuine K c t cv hc hone hrat1 htdim]
    obtain ⟨hin, hik, hidim, hikind, het, hcc⟩ :=
      hK.newCurve_repr cv.in_ (getCurveOrder t) (knotVector cv) (controlPoints cv) cv.ikind
        t.dimension 1
    generalize K.newCurve cv.in_ (getCurveOrder t) (knotVector cv) (controlPoints cv)
      cv.ikind t.dimension 1 = nc at hin hik hidim hikind het hcc
    have hord : getCurveOrder t = cv.ik := by rw [getCurveOrder, htord, hc.order_eq]
    have hkl := hc.knotVector_length
    have hcl := hc.controlPoints_length
    have hetfull : knotVector nc = knotVector cv := by
      rw [het]
      apply List.take_of_length_le
      rw [hord]
      omega
    have hstride : (if cv.ikind = 2 ∨ cv.ikind = 4 then t.dimension + 1 else t.dimension)
        = coordinatesStride cv := by
      unfold coordinatesStride; rw [htdim, hc.dim_eq]
    have hccfull : controlPoints nc = controlPoints cv := by
      rw [hcc, hstride]
      apply List.take_of_length_le
      omega
    have hncstride : coordinatesStride nc = coordinatesStride cv := by
      unfold coordinatesStride; rw [hikind, hidim, htdim, hc.dim_eq]
    have hsame : SameRepresentation { nc with cuopen := 1 } cv :=
      ⟨hin, by rw [← hord]; exact hik, by rw [hc.dim_eq, ← htdim]; exact hidim, hikind,
        hetfull, hccfull⟩
    have hrange : K.s1363 { nc with cuopen := 1 } = (c.start_param, c.end_param, 0) := by
      rw [hK.s1363_repr _ _ hsame]; exact hc.range_eq
    have hgen : Genuine K
        { t with curve := some { nc with cuopen := 1 }, singleton := [],
                 has_curvature_max := false, has_curve_length := false,
                 start_param := c.start_param, end_param := c.end_param }
        { nc with cuopen := 1 } :=
      { curve_eq := rfl
        singleton_eq := rfl
        order_eq := by show nc.ik = t.curve_order; rw [hik]; rfl
        dim_eq := hidim
        range_eq := hrange
        dim_pos := by show 0 < t.dimension; rw [htdim]; exact hc.dim_pos
        count_nonneg := by show 0 ≤ nc.in_; rw [hin]; exact hc.count_nonneg
        order_nonneg := by show 0 ≤ nc.ik; rw [hik, hord]; exact hc.order_nonneg
        kind_range := by show 1 ≤ nc.ikind ∧ nc.ikind ≤ 4; rw [hikind]; exact hc.kind_range
        knots_size := by
          show nc.in_ + nc.ik ≤ (nc.et.length : Int)
          apply le_length_of_take_length
          show ((knotVector nc).length : Int) = nc.in_ + nc.ik
          rw [hetfull, hin, hik, hord]; exact hkl
        coordinates_size := by
          show coordinatesStride nc * nc.in_ ≤ ((controlCoordinates nc).length : Int)
          apply le_length_of_take_length
          show ((controlPoints nc).length : Int) = coordinatesStride nc * nc.in_
          rw [hccfull, hncstride, hin]; exact hcl }
    refine ⟨_, { nc with cuopen := 1 }, ?_, hgen, hsame, ?_, ?_, ?_, rfl, rfl, ?_⟩
    · unfold resetCurve
      simp only [hrange, ne_eq, not_true_eq_false, if_false]
    · rw [hgen.getCoordinates_eq]; exact hccfull
    · rw [hgen.getKnots_eq]; exact hetfull
    · simp [getSISLCurveType, hikind]
    · intro result param
      simp only [getPoint, getPointAndTangentHelper, hc.curve_eq,
        hK.s1227_repr _ _ hsame]
  · intro hone hrat
    have hk : ¬ (cv.ikind = 2 ∨ cv.ikind = 4) := by
      intro h; rw [hnurbs.mpr h] at hrat; cases hrat
    refine ⟨?_, reset_of_single_vertex K c t cv hc hone hk htdim⟩
    rw [hc.controlPoints_length, hone, mul_one]
    unfold coordinatesStride
    rw [if_neg hk, hc.dim_eq]
  · intro hzero
    exact reset_of_no_vertex K c t cv hc hzero
theorem explicitSisl_explicit : ExplicitKernel explicitSisl :=
  { newCurve_repr := by
      intro n k et coef kind dim copy
      refine ⟨rfl, rfl, rfl, rfl, ?_, ?_⟩
      · simp [knotVector, explicitSisl, knotSisl]
      · simp [controlPoints, controlCoordinates, coordinatesStride, explicitSisl, knotSisl]
    s1363_repr := by
      intro c1 c2 h
      obtain ⟨_, _, _, _, het, _⟩ := h
      simp [explicitSisl, het]
    s1227_repr := by
      intro c1 c2 h
      obtain ⟨_, _, _, _, _, hcc⟩ := h
      simp [explicitSisl, hcc] }

theorem segmentCurve_genuine : Genuine explicitSisl segmentCurve unitSegment :=
  { curve_eq := rfl
    singleton_eq := rfl
    order_eq := rfl
    dim_eq := rfl
    range_eq := rfl
    dim_pos := by decide
    count_nonneg := by decide
    order_nonneg := by decide
    kind_range := by decide
    knots_size := by decide
    coordinates_size := by decide }

theorem vertexSpline_genuine : Genuine explicitSisl vertexSpline vertexCurve :=
  { curve_eq := rfl
    singleton_eq := rfl
    order_eq := rfl
    dim_eq := rfl
    range_eq := rfl
    dim_pos := by decide
    count_nonneg := by decide
    order_nonneg := by decide
    kind_range := by decide
    knots_size := by decide
    coordinates_size := by decide }

theorem reset_round_trip_witness :
    (∃ (r : SplineBase) (rv : SISLCurve),
      reset explicitSisl pointA (getCoordinates segmentCurve) (getKnots segmentCurve)
        (getSISLCurveType segmentCurve) = ⟨r, .ok ()⟩ ∧
      Genuine explicitSisl r rv ∧ SameRepresentation rv unitSegment ∧
      getCoordinates r = getCoordinates segmentCurve ∧
      getKnots r = getKnots segmentCurve ∧
      getSISLCurveType r = getSISLCurveType segmentCurve ∧
      getStartParam r = getStartParam segmentCurve ∧
      getEndParam r = getEndParam segmentCurve ∧
      ∀ (result : List ℚ) (param : ℚ),
        getPoint explicitSisl r result param
          = getPoint explicitSisl segmentCurve result param) ∧
    ((getCoordinates vertexSpline).length : Int) = vertexSpline.dimension ∧
    reset explicitSisl (new 3 (1 / 10) 1) (getCoordinates vertexSpline)
        (getKnots vertexSpline) (getSISLCurveType vertexSpline)
      = ⟨{ new 3 (1 / 10) 1 with
            start_param := 0, end_param := 0, has_curvature_max := false,
            has_curve_length := true, curve_length := 0,
            singleton := getCoordinates vertexSpline }, .ok ()⟩ :=
  ⟨(reset_round_trip explicitSisl segmentCurve pointA unitSegment explicitSisl_explicit
      segmentCurve_genuine rfl rfl rfl).2.2.1 (by decide) (by decide),
    (reset_round_trip explicitSisl vertexSpline (new 3 (1 / 10) 1) vertexCurve
      explicitSisl_explicit vertexSpline_genuine rfl rfl rfl).2.2.2.1 rfl rfl⟩

/-! ## The gap of join (C13) -/

theorem centredLine_eq : centredLine =
    { singleton := [], dimension := 3
      curve := some { ik := 2, in_ := 2, idim := 3, ikind := 1, et := [-1, -1, 1, 1],
                      ecoef := [-1, 0, 0, 1, 0, 0], rcoef := [-1, 0, 0, 1, 0, 0],
                      cuopen := 1 }
      geometric_resolution := 1 / 10, curve_order := 2
      start_param := -1, end_param := 1
      has_curve_length := false, curve_length := -1
      has_curvature_max := false, curvature_max := -1 } := rfl




/-- C13, evaluated on the code: this curve is the singleton at the origin (start parameter
0) and the other the line from (-1, 0, 0) at the parameter -1 to (1, 0, 0) at the parameter
1.  The start point of the other curve is (-1, 0, 0) and the gap in the words of the spec
is 1; `join` evaluates the other curve at the start parameter 0 of this curve, where it is
at the origin, computes the gap 0 and, with the tolerance 1/2, degrades to `append`, which
throws. -/
theorem join_gap_singleton_curve_branch :
    interpolate knotSisl (new 3 (1 / 10) 2) [0, 0, 0] [] = ⟨pointA, .ok ()⟩ ∧
    getStartParam pointA = 0 ∧ getStartParam centredLine = -1 ∧
    specStartPoint knotSisl centredLine = .ok [-1, 0, 0] ∧
    specGap knotSisl axisLibm pointA centredLine = .ok 1 ∧
    getPointAndTangent knotSisl centredLine [0, 0, 0, 0, 0, 0] (getStartParam pointA)
      = .ok [0, 0, 0, 1, 0, 0] ∧
    joinSetup knotSisl pointA centredLine
      = .ok ⟨[0, 0, 0, 0, 0, 0, 1, 0, 0], 0, 3, [1, 1, 14, 0]⟩ ∧
    axisLibm.sqrt (joinSquaredDist ⟨[0, 0, 0, 0, 0, 0, 1, 0, 0], 0, 3, [1, 1, 14, 0]⟩ 3) = 0 ∧
    join knotSisl axisLibm pointA centredLine (1 / 2)
      = ⟨pointA, .error (.runtime_error "cannot append a curve to a singleton")⟩ := by
  refine ⟨rfl, rfl, rfl, ?_, ?_, ?_, ?_, ?_, ?_⟩
  · rw [centredLine_eq]
    simp [specStartPoint, getPoint, getPointAndTangentHelper, knotSisl, isSingleton,
      getStartParam, getDimension, controlCoordinates, writeAt]
    norm_num
  · rw [centredLine_eq]
    simp [specGap, specEndPoint, specStartPoint, euclideanDistance, getPoint,
      getPointAndTangentHelper, knotSisl, axisLibm, pointA, isSingleton,
      getStartParam, getDimension, controlCoordinates, writeAt]
    norm_num
  · rw [centredLine_eq]
    simp [getPointAndTangent, getPointAndTangentHelper, knotSisl, pointA,
      getStartParam, controlCoordinates, writeAt]
  · rw [centredLine_eq]
    simp [joinSetup, getPointAndTangent, getPointAndTangentHelper, knotSisl, pointA,
      isSingleton, getStartParam, getDimension, controlCoordinates, writeAt, addInto,
      List.range, List.range.loop]
    norm_num
  · simp [joinSquaredDist, axisLibm, List.range, List.range.loop]
  · rw [centredLine_eq]
    simp [join, append, joinSetup, joinSquaredDist, getPointAndTangent,
      getPointAndTangentHelper, knotSisl, axisLibm, pointA,
      isSingleton, isEmpty, getStartParam, getDimension, controlCoordinates, writeAt,
      addInto, List.range, List.range.loop]
    norm_num

/-! ## The gap of join against the end point gap (C10) -/

theorem getD_set_ne (b : List ℚ) (k j : Nat) (v : ℚ) (h : k ≠ j) :
    (b.set k v).getD j 0 = b.getD j 0 := by
  simp only [List.getD_eq_getElem?_getD, List.getElem?_set_ne h]

theorem getD_take_lt (l : List ℚ) (d i : Nat) (h : i < d) :
    (l.take d).getD i 0 = l.getD i 0 := by
  simp only [List.getD_eq_getElem?_getD, List.getElem?_take_of_lt h]

theorem foldl_getD_unchanged (g : List ℚ → Nat → List ℚ) (j : Nat) :
    ∀ (l : List Nat), (∀ (b : List ℚ), ∀ i ∈ l, (g b i).getD j 0 = b.getD j 0) →
      ∀ buf : List ℚ, (l.foldl g buf).getD j 0 = buf.getD j 0 := by
  intro l
  induction l with
  | nil => intro _ buf; rfl
  | cons i l ih =>
    intro hstep buf
    rw [List.foldl_cons,
      ih (fun b k hk => hstep b k (List.mem_cons_of_mem _ hk)) (g buf i)]
    exact hstep buf i (List.mem_cons_self _ _)

theorem foldl_add_eq_sum (F : Nat → ℚ) :
    ∀ (l : List Nat) (a : ℚ), l.foldl (fun acc i => acc + F i) a = a + (l.map F).sum := by
  intro l
  induction l with
  | nil => intro a; simp
  | cons i l ih => intro a; rw [List.foldl_cons, ih]; simp [add_assoc]

theorem map_range_getD_eq_zipWith (h : ℚ → ℚ → ℚ) :
    ∀ (d : Nat) (a b : List ℚ), a.length = d → b.length = d →
      (List.range d).map (fun i => h (a.getD i 0) (b.getD i 0)) = List.zipWith h a b := by
  intro d a b ha hb
  apply List.ext_getElem
  · simp [ha, hb]
  · intro i h1 h2
    have hi : i < d := by simpa using h1
    have hia : i < a.length := by omega
    have hib : i < b.length := by omega
    simp [List.getD_eq_getElem?_getD, List.getElem?_eq_getElem hia,
      List.getElem?_eq_getElem hib]

theorem joinSquaredDist_eq (jp a b : List ℚ) (sp ep d : Nat) (ty : List Int)
    (ha : a.length = d) (hb : b.length = d)
    (hsp : ∀ i, i < d → jp.getD (sp + i) 0 = a.getD i 0)
    (hep : ∀ i, i < d → jp.getD (ep + i) 0 = b.getD i 0) :
    joinSquaredDist ⟨jp, sp, ep, ty⟩ d
      = (List.zipWith (fun x y => (x - y) * (x - y)) a b).sum := by
  unfold joinSquaredDist
  have hfun : ∀ (l : List Nat), (∀ i ∈ l, i < d) → ∀ acc : ℚ,
      l.foldl (fun dist i =>
        let dd := jp.getD (sp + i) 0 - jp.getD (ep + i) 0
        dist + dd * dd) acc
      = l.foldl (fun acc i => acc + (a.getD i 0 - b.getD i 0) * (a.getD i 0 - b.getD i 0))
          acc := by
    intro l
    induction l with
    | nil => intro _ acc; rfl
    | cons i l ih =>
      intro hl acc
      have hi : i < d := hl i (List.mem_cons_self _ _)
      simp only [List.foldl_cons, hsp i hi, hep i hi]
      exact ih (fun k hk => hl k (List.mem_cons_of_mem _ hk)) _
  rw [hfun (List.range d) (fun i hi => List.mem_range.mp hi) 0,
    foldl_add_eq_sum (fun i => (a.getD i 0 - b.getD i 0) * (a.getD i 0 - b.getD i 0)),
    map_range_getD_eq_zipWith (fun x y => (x - y) * (x - y)) d a b ha hb, zero_add]
theorem evaluation_of_curve (K : Sisl) (x : SplineBase) (xv : SISLCurve) (q : ℚ)
    (r : List ℚ) (hK : PointTangentKernel K x.dimension)
    (hx : x.curve = some xv) (hxd : xv.idim = x.dimension)
    (h : getPoint K x (List.replicate x.dimension.toNat 0) q = .ok r) :
    r = (K.s1227 xv 0 q).1 ∧
    ∀ buf : List ℚ, getPointAndTangent K x buf q = .ok (writeAt buf 0 (K.s1227 xv 1 q).1) := by
  have hlen := hK.point_size xv q hxd
  have hst := hK.status_eq xv q hxd
  unfold getPoint getPointAndTangentHelper at h
  unfold getPointAndTangent getPointAndTangentHelper
  by_cases hrange : q < x.start_param ∨ q > x.end_param
  · rw [if_pos hrange] at h; cases h
  · rw [if_neg hrange] at h
    simp only [hx, Bool.false_eq_true, if_false] at h
    by_cases hstatus : (K.s1227 xv 0 q).2 ≠ 0
    · rw [if_pos hstatus] at h; cases h
    · rw [if_neg hstatus] at h
      simp only [Except.ok.injEq] at h
      constructor
      · rw [← h, writeAt_zero _ _ (by simp [hlen])]
        simp [hlen]
      · intro buf
        simp only [if_neg hrange, hx, if_true, hst, if_neg hstatus]
theorem getD_of_two_blocks (vals rest : List ℚ) (d : Nat) (hvals : vals.length = 2 * d) :
    (∀ i, i < d → (vals ++ rest).getD (0 + i) 0 = (vals.take d).getD i 0) ∧
    (∀ i, i < d → (vals ++ rest).getD (2 * d + i) 0 = rest.getD i 0) := by
  constructor
  · intro i hi
    rw [Nat.zero_add, List.getD_append _ _ _ _ (by omega), getD_take_lt _ _ _ hi]
  · intro i _
    rw [List.getD_append_right _ _ _ _ (by omega)]
    congr 1
    omega

theorem writeAt_zero_replicate (vals : List ℚ) (n : Nat) (h : vals.length ≤ n) :
    writeAt (List.replicate n (0 : ℚ)) 0 vals = vals ++ List.replicate (n - vals.length) 0 := by
  rw [writeAt_zero vals _ (by simpa using h), List.drop_replicate]

theorem joinSetup_curve_singleton (K : Sisl) (s other : SplineBase) (vals : List ℚ)
    (hvals : vals.length = 2 * (getDimension s).toNat)
    (heval : ∀ buf : List ℚ,
      getPointAndTangent K s buf (getEndParam s) = .ok (writeAt buf 0 vals))
    (hother : isSingleton other = true)
    (hlen : other.singleton.length = (getDimension s).toNat) :
    ∃ jp : List ℚ,
      joinSetup K s other = .ok ⟨jp, 0, 2 * (getDimension s).toNat, [1, 14, 1, 0]⟩ ∧
      (∀ i, i < (getDimension s).toNat →
        jp.getD (0 + i) 0 = (vals.take (getDimension s).toNat).getD i 0) ∧
      (∀ i, i < (getDimension s).toNat →
        jp.getD (2 * (getDimension s).toNat + i) 0 = other.singleton.getD i 0) := by
  generalize hd : (getDimension s).toNat = d at hvals hlen ⊢
  have hjp2 : writeAt (writeAt (List.replicate (3 * d) (0 : ℚ)) 0 vals) (2 * d) other.singleton
      = vals ++ other.singleton := by
    have e1 : 3 * d - vals.length = d := by omega
    have e2 : d - other.singleton.length = 0 := by omega
    rw [writeAt_zero_replicate vals _ (by omega), e1, writeAt_offset, hvals.symm,
      List.take_left, List.drop_left, writeAt_zero_replicate _ _ (by omega), e2]
    simp
  obtain ⟨h0, h2⟩ := getD_of_two_blocks vals other.singleton d hvals
  refine ⟨addInto (vals ++ other.singleton) d 0 d, ?_, ?_, ?_⟩
  · unfold joinSetup
    simp only [hother, if_true, heval, hd, hjp2]
  · intro i hi
    unfold addInto
    rw [foldl_getD_unchanged _ (0 + i) _ _ _, h0 i hi]
    intro b k hk
    exact getD_set_ne _ _ _ _ (by omega)
  · intro i hi
    unfold addInto
    rw [foldl_getD_unchanged _ (2 * d + i) _ _ _, h2 i hi]
    intro b k hk
    have hk' : k < d := List.mem_range.mp hk
    exact getD_set_ne _ _ _ _ (by omega)
theorem joinSetup_curve_curve (K : Sisl) (s other : SplineBase) (vals1 vals2 : List ℚ)
    (hvals1 : vals1.length = 2 * (getDimension s).toNat)
    (hvals2 : vals2.length = 2 * (getDimension s).toNat)
    (heval1 : ∀ buf : List ℚ,
      getPointAndTangent K s buf (getEndParam s) = .ok (writeAt buf 0 vals1))
    (heval2 : ∀ buf : List ℚ,
      getPointAndTangent K other buf (getStartParam other) = .ok (writeAt buf 0 vals2))
    (hs : isSingleton s = false) (hother : isSingleton other = false) :
    ∃ jp : List ℚ,
      joinSetup K s other = .ok ⟨jp, 0, 2 * (getDimension s).toNat, [1, 14, 1, 14]⟩ ∧
      (∀ i, i < (getDimension s).toNat →
        jp.getD (0 + i) 0 = (vals1.take (getDimension s).toNat).getD i 0) ∧
      (∀ i, i < (getDimension s).toNat →
        jp.getD (2 * (getDimension s).toNat + i) 0
          = (vals2.take (getDimension s).toNat).getD i 0) := by
  generalize hd : (getDimension s).toNat = d at hvals1 hvals2 ⊢
  have e1 : 4 * d - vals1.length = 2 * d := by omega
  have e2 : 2 * d - vals2.length = 0 := by omega
  have hjp1 : writeAt (List.replicate (4 * d) (0 : ℚ)) 0 vals1
      = vals1 ++ List.replicate (2 * d) 0 := by
    rw [writeAt_zero_replicate vals1 _ (by omega), e1]
  have hmem : writeAt (List.replicate (2 * d) (0 : ℚ)) 0 vals2 = vals2 := by
    rw [writeAt_zero_replicate vals2 _ (by omega), e2]
    simp
  have htake : (vals1 ++ List.replicate (2 * d) (0 : ℚ)).take (2 * d) = vals1 := by
    rw [← hvals1, List.take_left]
  have hdrop : (vals1 ++ List.replicate (2 * d) (0 : ℚ)).drop (2 * d)
      = List.replicate (2 * d) 0 := by
    rw [← hvals1, List.drop_left, hvals1]
  obtain ⟨h0, h2⟩ := getD_of_two_blocks vals1 vals2 d hvals1
  refine ⟨(List.range d).foldl
      (fun b i =>
        let b1 := b.set (i + d) (b.getD (i + d) 0 + b.getD i 0)
        b1.set (i + 3 * d) (b1.getD (i + 3 * d) 0 + b1.getD (i + 2 * d) 0))
      (vals1 ++ vals2), ?_, ?_, ?_⟩
  · unfold joinSetup
    simp only [hother, hs, Bool.false_eq_true, if_false, heval1, hd, hjp1, hdrop, heval2,
      hmem, htake]
  · intro i hi
    rw [foldl_getD_unchanged _ (0 + i) _ _ _, h0 i hi]
    intro b k hk
    simp only
    rw [getD_set_ne _ _ _ _ (by omega), getD_set_ne _ _ _ _ (by omega)]
  · intro i hi
    rw [foldl_getD_unchanged _ (2 * d + i) _ _ _, h2 i hi]
    · rw [List.getD_eq_getElem?_getD, List.getD_eq_getElem?_getD,
        List.getElem?_take_of_lt hi]
    · intro b k hk
      have hk' : k < d := List.mem_range.mp hk
      simp only
      rw [getD_set_ne _ _ _ _ (by omega), getD_set_ne _ _ _ _ (by omega)]
theorem specEndPoint_of_curve (K : Sisl) (s : SplineBase) (cv : SISLCurve) (a : List ℚ)
    (hK : PointTangentKernel K s.dimension)
    (hcv : s.curve = some cv) (hcvd : cv.idim = s.dimension) (hsing : s.singleton = [])
    (h : specEndPoint K s = .ok a) :
    a = (K.s1227 cv 0 (getEndParam s)).1 ∧
    ∀ buf : List ℚ,
      getPointAndTangent K s buf (getEndParam s)
        = .ok (writeAt buf 0 (K.s1227 cv 1 (getEndParam s)).1) := by
  have hns : isSingleton s = false := by simp [isSingleton, hsing]
  unfold specEndPoint at h
  simp only [hns, Bool.false_eq_true, if_false, getDimension] at h
  cases hp : getPoint K s (List.replicate s.dimension.toNat 0) (getEndParam s) with
  | error e => rw [hp] at h; cases h
  | ok r =>
    rw [hp] at h
    simp only [Except.ok.injEq] at h
    obtain ⟨hr, heval⟩ := evaluation_of_curve K s cv (getEndParam s) r hK hcv hcvd hp
    refine ⟨?_, heval⟩
    rw [← h, hr]
    apply List.take_of_length_le
    rw [hK.point_size cv _ hcvd]

theorem specStartPoint_of_curve (K : Sisl) (s : SplineBase) (cv : SISLCurve) (b : List ℚ)
    (hK : PointTangentKernel K s.dimension)
    (hcv : s.curve = some cv) (hcvd : cv.idim = s.dimension) (hsing : s.singleton = [])
    (h : specStartPoint K s = .ok b) :
    b = (K.s1227 cv 0 (getStartParam s)).1 ∧
    ∀ buf : List ℚ,
      getPointAndTangent K s buf (getStartParam s)
        = .ok (writeAt buf 0 (K.s1227 cv 1 (getStartParam s)).1) := by
  have hns : isSingleton s = false := by simp [isSingleton, hsing]
  unfold specStartPoint at h
  simp only [hns, Bool.false_eq_true, if_false, getDimension] at h
  cases hp : getPoint K s (List.replicate s.dimension.toNat 0) (getStartParam s) with
  | error e => rw [hp] at h; cases h
  | ok r =>
    rw [hp] at h
    simp only [Except.ok.injEq] at h
    obtain ⟨hr, heval⟩ := evaluation_of_curve K s cv (getStartParam s) r hK hcv hcvd hp
    refine ⟨?_, heval⟩
    rw [← h, hr]
    apply List.take_of_length_le
    rw [hK.point_size cv _ hcvd]

theorem specGap_ok (K : Sisl) (M : Libm) (s other : SplineBase) (gap : ℚ)
    (h : specGap K M s other = .ok gap) :
    ∃ a b, specEndPoint K s = .ok a ∧ specStartPoint K other = .ok b ∧
      gap = euclideanDistance M a b := by
  unfold specGap at h
  cases ha : specEndPoint K s with
  | error e =>
    rw [ha] at h
    cases hb : specStartPoint K other <;> rw [hb] at h <;> cases h
  | ok a =>
    cases hb : specStartPoint K other with
    | error e => rw [ha, hb] at h; cases h
    | ok b =>
      rw [ha, hb] at h
      simp only [Except.ok.injEq] at h
      exact ⟨a, b, rfl, rfl, h.symm⟩

/-- C10, amended: for every pair of curves of equal dimension in which this curve is a
genuine curve and the other a singleton or a genuine curve, and a kernel that evaluates
the position with and without the tangent alike: when the end point gap (the Euclidean
distance between `pointAt(endParam)` of this curve and the start point of the other, its
stored point or its `pointAt` at its own start parameter) is defined and not greater than
the tolerance, `join` has exactly the outcome of `append`: the same resulting object and
the same result or failure. -/
theorem join_degrades_to_append (K : Sisl) (M : Libm) (s other : SplineBase)
    (tolerance gap : ℚ)
    (hK : PointTangentKernel K s.dimension)
    (hs : IsGenuineCurve s) (hother : IsSingletonCurve other ∨ IsGenuineCurve other)
    (hdim : other.dimension = s.dimension)
    (hgap : specGap K M s other = .ok gap) (hle : gap ≤ tolerance) :
    join K M s other tolerance = append K s other := by
  obtain ⟨cv, hcv, hcvd, hsing⟩ := hs
  obtain ⟨a, b, ha, hb, hab⟩ := specGap_ok K M s other gap hgap
  obtain ⟨ha1, heval1⟩ := specEndPoint_of_curve K s cv a hK hcv hcvd hsing ha
  have hns : isSingleton s = false := by simp [isSingleton, hsing]
  have hne : isEmpty s = false := by simp [isEmpty, hcv]
  have hgd : getDimension other = getDimension s := hdim
  have halen : a.length = (getDimension s).toNat := by
    rw [ha1]; exact hK.point_size cv _ hcvd
  have hv1 : (K.s1227 cv 1 (getEndParam s)).1.length = 2 * (getDimension s).toNat :=
    hK.tangent_size cv _ hcvd
  have hp1 : (K.s1227 cv 1 (getEndParam s)).1.take (getDimension s).toNat = a := by
    rw [ha1]; exact hK.point_eq cv _ hcvd
  have htol : (if tolerance < 0 then 0 else tolerance) = max tolerance 0 := by
    by_cases h : tolerance < 0
    · rw [if_pos h, max_eq_right (le_of_lt h)]
    · rw [if_neg h, max_eq_left (not_lt.mp h)]
  have key : ∃ js : JoinSetup, joinSetup K s other = .ok js ∧
      isEmpty other = false ∧
      joinSquaredDist js (getDimension s).toNat
        = (List.zipWith (fun x y => (x - y) * (x - y)) a b).sum := by
    rcases hother with ⟨hoc, hone, holen⟩ | ⟨ov, hov, hovd, hosing⟩
    · have hos : isSingleton other = true := by
        cases hl : other.singleton with
        | nil => exact absurd hl hone
        | cons _ _ => simp [isSingleton, hl]
      have hb1 : b = other.singleton := by
        unfold specStartPoint at hb
        simp only [hos, if_true, Except.ok.injEq] at hb
        exact hb.symm
      have hlen : other.singleton.length = (getDimension s).toNat := by
        unfold getDimension; omega
      obtain ⟨jp, hjs, h0, h2⟩ :=
        joinSetup_curve_singleton K s other _ hv1 heval1 hos hlen
      refine ⟨_, hjs, ?_, ?_⟩
      · cases hl : other.singleton with
        | nil => exact absurd hl hone
        | cons _ _ => simp [isEmpty, hl]
      · apply joinSquaredDist_eq jp a b _ _ _ _ halen (by rw [hb1]; exact hlen)
        · intro i hi; rw [h0 i hi, hp1]
        · intro i hi; rw [h2 i hi, hb1]
    · have hKo : PointTangentKernel K other.dimension := by rw [hdim]; exact hK
      obtain ⟨hb1, heval2⟩ := specStartPoint_of_curve K other ov b hKo hov hovd hosing hb
      have hos : isSingleton other = false := by simp [isSingleton, hosing]
      have hovs : ov.idim = s.dimension := by rw [hovd, hdim]
      have hv2 : (K.s1227 ov 1 (getStartParam other)).1.length
          = 2 * (getDimension s).toNat := hK.tangent_size ov _ hovs
      obtain ⟨jp, hjs, h0, h2⟩ :=
        joinSetup_curve_curve K s other _ _ hv1 hv2 heval1 heval2 hns hos
      refine ⟨_, hjs, by simp [isEmpty, hov], ?_⟩
      have hblen : b.length = (getDimension s).toNat := by
        rw [hb1]; exact hK.point_size ov _ hovs
      have hp2 : (K.s1227 ov 1 (getStartParam other)).1.take (getDimension s).toNat = b := by
        rw [hb1]; exact hK.point_eq ov _ hovs
      apply joinSquaredDist_eq jp a b _ _ _ _ halen hblen
      · intro i hi; rw [h0 i hi, hp1]
      · intro i hi; rw [h2 i hi, hp2]
  obtain ⟨js, hjs, hoe, hsq⟩ := key
  have hdist : M.sqrt (joinSquaredDist js (getDimension s).toNat) ≤ max tolerance 0 := by
    rw [hsq]
    have : gap = M.sqrt ((List.zipWith (fun x y => (x - y) * (x - y)) a b).sum) := hab
    rw [← this]
    exact le_trans hle (le_max_left _ _)
  unfold join
  simp only [hgd, hne, hoe, hns, hjs, htol, hdist]
  simp
theorem knotSisl_pointTangent : PointTangentKernel knotSisl 3 :=
  { status_eq := by intro c p _; simp [knotSisl]
    point_size := by intro c p _; simp [knotSisl]
    tangent_size := by intro c p _; simp [knotSisl]
    point_eq := by intro c p _; simp [knotSisl] }

theorem followingLine_eq : followingLine =
    { singleton := [], dimension := 3
      curve := some { ik := 2, in_ := 2, idim := 3, ikind := 1, et := [1 / 2, 1 / 2, 1, 1],
                      ecoef := [1, 0, 0, 2, 0, 0], rcoef := [1, 0, 0, 2, 0, 0],
                      cuopen := 1 }
      geometric_resolution := 1 / 10, curve_order := 2
      start_param := 1 / 2, end_param := 1
      has_curve_length := false, curve_length := -1
      has_curvature_max := false, curvature_max := -1 } := rfl

theorem join_degrades_to_append_witness :
    specGap knotSisl axisLibm segmentCurve pointB = .ok 0 ∧
    join knotSisl axisLibm segmentCurve pointB (1 / 10)
      = append knotSisl segmentCurve pointB ∧
    specGap knotSisl axisLibm segmentCurve followingLine = .ok 0 ∧
    join knotSisl axisLibm segmentCurve followingLine (1 / 10)
      = append knotSisl segmentCurve followingLine := by
  have hg1 : specGap knotSisl axisLibm segmentCurve pointB = .ok 0 := by
    simp [specGap, specEndPoint, specStartPoint, euclideanDistance, getPoint,
      getPointAndTangentHelper, knotSisl, axisLibm, segmentCurve, pointB, unitSegment,
      isSingleton, getEndParam, getDimension, controlCoordinates, writeAt]
    norm_num
  have hg2 : specGap knotSisl axisLibm segmentCurve followingLine = .ok 0 := by
    rw [followingLine_eq]
    simp [specGap, specEndPoint, specStartPoint, euclideanDistance, getPoint,
      getPointAndTangentHelper, knotSisl, axisLibm, segmentCurve, unitSegment,
      isSingleton, getEndParam, getStartParam, getDimension, controlCoordinates, writeAt]
    norm_num
  exact ⟨hg1,
    join_degrades_to_append knotSisl axisLibm segmentCurve pointB (1 / 10) 0
      knotSisl_pointTangent ⟨unitSegment, rfl, rfl, rfl⟩
      (Or.inl ⟨rfl, by simp [pointB], rfl⟩) rfl hg1 (by norm_num),
    hg2,
    join_degrades_to_append knotSisl axisLibm segmentCurve followingLine (1 / 10) 0
      knotSisl_pointTangent ⟨unitSegment, rfl, rfl, rfl⟩
      (Or.inr ⟨_, congrArg SplineBase.curve followingLine_eq, rfl, rfl⟩) rfl hg2
      (by norm_num)⟩

end SplineBase

end base.geometry
